import Mathlib

/-!
Verification development for the invoice extraction engine in `src/app.py`
(class `AnalyseurFacturesPro`).  The Python code is shallowly embedded:
each method becomes a pure Lean function over `String` / `List Char`,
Python floats are modelled as exact rationals (`ℚ`), and each regular
expression used by the code is transcribed as an explicit character-level
matcher with Python's leftmost-match / backtracking preference order.
-/

/-! ## Character helpers (Python semantics) -/

/-- Python `\d` (ASCII digits, the only digits occurring in the inputs). -/
def isDigitC (c : Char) : Bool := c.isDigit

/-- Python `\s`: space, tab, newline, carriage return, vertical tab, form feed. -/
def isSpaceC (c : Char) : Bool :=
  c = ' ' || c = '\t' || c = '\n' || c = '\r' || c = Char.ofNat 11 || c = Char.ofNat 12

/-- Python `\w` (word character), for ASCII plus the Latin-1 letter range
    that occurs in the invoice texts. -/
def isWordC (c : Char) : Bool :=
  c.isAlpha || c.isDigit || c = '_' ||
    (0xC0 ≤ c.toNat && c.toNat ≤ 0xFF && c ≠ '×' && c ≠ '÷')

/-- The character class `[A-Z0-9\-]` of the invoice-number pattern. -/
def isNumClassC (c : Char) : Bool := c.isUpper || c.isDigit || c = '-'

/-- Python `str.upper` on one character, for ASCII and the Latin-1 letters
    (à..þ except ÷) used by the invoice texts. -/
def pyUpperChar (c : Char) : Char :=
  if c.isLower then Char.ofNat (c.toNat - 32)
  else if 0xE0 ≤ c.toNat && c.toNat ≤ 0xFE && c ≠ '÷' then Char.ofNat (c.toNat - 32)
  else c

/-- Python `str.lower` on one character, for ASCII and the Latin-1 letters
    (À..Þ except ×) used by the invoice texts. -/
def pyLowerChar (c : Char) : Char :=
  if c.isUpper then Char.ofNat (c.toNat + 32)
  else if 0xC0 ≤ c.toNat && c.toNat ≤ 0xDE && c ≠ '×' then Char.ofNat (c.toNat + 32)
  else c

/-- Python `str.upper`. -/
def pyUpperStr (s : String) : String := ⟨s.data.map pyUpperChar⟩

/-- Python `str.lower`. -/
def pyLowerStr (s : String) : String := ⟨s.data.map pyLowerChar⟩

/-- Python `str.strip()` (whitespace at both ends). -/
def stripStr (s : String) : String :=
  ⟨((s.data.dropWhile isSpaceC).reverse.dropWhile isSpaceC).reverse⟩

/-- Numeric value of a digit string (`int(...)`). -/
def natOfDigits (cs : List Char) : ℕ :=
  cs.foldl (fun a c => 10 * a + (c.toNat - 48)) 0

/-- Value of `float("<ip>.<fp>")` as an exact rational. -/
def decVal (ip fp : List Char) : ℚ :=
  (natOfDigits ip : ℚ) + (natOfDigits fp : ℚ) / (10 : ℚ) ^ fp.length

/-- Value of `float(s.replace(',', '.'))` for the decimal tokens produced by
    the regexes of the code (digits, optionally a comma/dot and digits). -/
def parseDecStr (s : String) : ℚ :=
  match s.data.span isDigitC with
  | (ip, []) => (natOfDigits ip : ℚ)
  | (ip, _ :: rest) => decVal ip (rest.takeWhile isDigitC)

/-- Python `str.isdigit()` (non-empty, all digits). -/
def isDigitStr (s : String) : Bool := s ≠ "" && s.data.all isDigitC

/-! ## Literal and substring matching -/

/-- `leadsWith pat cs`: `pat` is an initial segment of `cs`. -/
def leadsWith : List Char → List Char → Bool
  | [], _ => true
  | _ :: _, [] => false
  | a :: as, b :: bs => a = b && leadsWith as bs

/-- `ciLeadsWith pat cs`: case-insensitive variant, `pat` given upper-case. -/
def ciLeadsWith : List Char → List Char → Bool
  | [], _ => true
  | _ :: _, [] => false
  | a :: as, b :: bs => a = pyUpperChar b && ciLeadsWith as bs

/-- Python `pat in hay` (substring containment). -/
def hasInfix (hay pat : List Char) : Bool :=
  match hay with
  | [] => pat.isEmpty
  | c :: t => leadsWith pat (c :: t) || hasInfix t pat

/-- First alternative of an alternation that matches literally at the front,
    returning it together with the rest of the input. -/
def tryPrefixes : List String → List Char → Option (String × List Char)
  | [], _ => none
  | a :: rest, cs =>
    if leadsWith a.data cs then some (a, cs.drop a.length) else tryPrefixes rest cs

/-- `re.search`: try the position matcher at every start position, leftmost
    match wins. -/
def reSearch {α : Type} (m : List Char → Option α) : List Char → Option α
  | [] => m []
  | c :: t =>
    match m (c :: t) with
    | some x => some x
    | none => reSearch m t

/-- Backtracking over a greedy `\s+` that is followed by a component able to
    consume spaces itself (a lazy `.+?`): the continuation is tried after
    consuming all the spaces first, then ever fewer, down to one. -/
def spacesBTAux {α : Type} (cont : List Char → Option α) (sp rest : List Char) :
    ℕ → Option α
  | 0 => none
  | j + 1 =>
    match cont (sp.drop (j + 1) ++ rest) with
    | some x => some x
    | none => spacesBTAux cont sp rest j

/-- `\s+ cont` with full backtracking on the amount of whitespace consumed
    (`sp` is the maximal whitespace run, `rest` what follows it). -/
def spacesBT {α : Type} (cont : List Char → Option α) (sp rest : List Char) : Option α :=
  if sp.isEmpty then none else spacesBTAux cont sp rest sp.length

/-! ## Packaging parser: `extraire_contenance_avancee`

The six patterns of the Python method, each transcribed as a matcher that is
attempted at one position (`reSearch` supplies the leftmost-match scan).
In each matcher, maximal-munch for `\d+`/`\s*` is exact: shrinking a digit or
space run always leaves a digit (resp. space) in front of a component that
cannot start with one, so Python's backtracking never produces a shorter run.
-/

/-- `\d+(?:[,\.]\d+)?` — number token, returned verbatim (group text). -/
def numTok (cs : List Char) : Option (List Char × List Char) :=
  match cs.span isDigitC with
  | ([], _) => none
  | (d, r) =>
    match r with
    | s :: r2 =>
      if s = ',' || s = '.' then
        match r2.span isDigitC with
        | ([], _) => some (d, r)
        | (f, r3) => some (d ++ s :: f, r3)
      else some (d, r)
    | [] => some (d, [])

/-- Pattern 1: `(\d+)\s*[X×]\s*(\d+(?:[,\.]\d+)?)\s*(CL|ML|L|KG|G)`. -/
def p1At (cs : List Char) : Option (String × String × String) :=
  match cs.span isDigitC with
  | ([], _) => none
  | (d1, r1) =>
    match r1.dropWhile isSpaceC with
    | [] => none
    | x :: r3 =>
      if x = 'X' || x = '×' then
        match numTok (r3.dropWhile isSpaceC) with
        | none => none
        | some (n2, r5) =>
          match tryPrefixes ["CL", "ML", "L", "KG", "G"] (r5.dropWhile isSpaceC) with
          | some (u, _) => some (⟨d1⟩, ⟨n2⟩, u)
          | none => none
      else none

/-- Unit alternation followed by `\b`; a failing boundary check sends the
    alternation on to its next branch, as in Python. -/
def unitWithB (alts : List String) (cs : List Char) : Option String :=
  match alts with
  | [] => none
  | a :: rest =>
    if leadsWith a.data cs then
      match cs.drop a.length with
      | [] => some a
      | c :: _ => if isWordC c then unitWithB rest cs else some a
    else unitWithB rest cs

/-- Pattern 2: `(\d+(?:[,\.]\d+)?)\s*(CL|ML|L|KG|G)\b`. -/
def p2At (cs : List Char) : Option (String × String) :=
  match numTok cs with
  | none => none
  | some (n, r) =>
    match unitWithB ["CL", "ML", "L", "KG", "G"] (r.dropWhile isSpaceC) with
    | some u => some (⟨n⟩, u)
    | none => none

/-- Pattern 3: `(?:PACK\s+DE\s+)?(\d+)\s+(?:PACK|PC|UN|BTL|BTE)`.
    The optional non-capturing `PACK DE` prefix only moves the start of the
    match; it contains no digit, so the captured group of the leftmost match
    is the same without it and it is dropped here. -/
def p3At (cs : List Char) : Option String :=
  match cs.span isDigitC with
  | ([], _) => none
  | (d, r) =>
    match r.span isSpaceC with
    | ([], _) => none
    | (_, r2) =>
      match tryPrefixes ["PACK", "PC", "UN", "BTL", "BTE"] r2 with
      | some _ => some ⟨d⟩
      | none => none

/-- Keyword alternation of pattern 4, with fallback to the next alternative
    when the digits after the keyword are missing. -/
def p4kwTry : List String → List Char → Option String
  | [], _ => none
  | k :: rest, cs =>
    if leadsWith k.data cs then
      match ((cs.drop k.length).dropWhile isSpaceC).span isDigitC with
      | ([], _) => p4kwTry rest cs
      | (d, _) => some ⟨d⟩
    else p4kwTry rest cs

/-- Pattern 4: `(?:CAR|CAISSE|CAI|FAR)\s*(\d+)`. -/
def p4At (cs : List Char) : Option String :=
  p4kwTry ["CAR", "CAISSE", "CAI", "FAR"] cs

/-- Pattern 5: `(\d+)\s*(?:BOUTEILLE|BTL|BTE)`. -/
def p5At (cs : List Char) : Option String :=
  match cs.span isDigitC with
  | ([], _) => none
  | (d, r) =>
    match tryPrefixes ["BOUTEILLE", "BTL", "BTE"] (r.dropWhile isSpaceC) with
    | some _ => some ⟨d⟩
    | none => none

/-- Pattern 6: `(\d+(?:[,\.]\d+)?)\s*(KG|G)`. -/
def p6At (cs : List Char) : Option (String × String) :=
  match numTok cs with
  | none => none
  | some (n, r) =>
    match tryPrefixes ["KG", "G"] (r.dropWhile isSpaceC) with
    | some (u, _) => some (⟨n⟩, u)
    | none => none

/-- The formatter of pattern 1:
    `(f"{g1}x{g2}{g3}", float(g1) * float(g2.replace(',', '.')), g3)`. -/
def p1Formatter (g : String × String × String) : String × ℚ × String :=
  (g.1 ++ "x" ++ g.2.1 ++ g.2.2, parseDecStr g.1 * parseDecStr g.2.1, g.2.2)

/-- `extraire_contenance_avancee` (app.py lines 49–83): the six patterns are
    searched in order against the upper-cased description, the first pattern
    with a match anywhere wins, default `("1PC", 1, "PC")`. -/
def extraire_contenance_avancee (texte : String) : String × ℚ × String :=
  if texte = "" then ("1PC", 1, "PC")
  else
    match reSearch p1At (pyUpperStr texte).data with
    | some g => p1Formatter g
    | none =>
      match reSearch p2At (pyUpperStr texte).data with
      | some (n, u) => (n ++ u, parseDecStr n, u)
      | none =>
        match reSearch p3At (pyUpperStr texte).data with
        | some d => (d ++ "PC", parseDecStr d, "PC")
        | none =>
          match reSearch p4At (pyUpperStr texte).data with
          | some d => (d ++ "PC", parseDecStr d, "PC")
          | none =>
            match reSearch p5At (pyUpperStr texte).data with
            | some d => (d ++ "BTL", parseDecStr d, "BTL")
            | none =>
              match reSearch p6At (pyUpperStr texte).data with
              | some (n, u) => (n ++ u, parseDecStr n, u)
              | none => ("1PC", 1, "PC")

/-! ## `calculer_volume_total` (app.py lines 85–116) -/

structure VolumeInfo where
  contenance_format : String
  volume_unitaire : ℚ
  volume_total : ℚ
  unite : String
deriving DecidableEq, Repr

/-- `calculer_volume_total(quantite, contenance_str)`. -/
def calculer_volume_total (quantite : ℚ) (contenance_str : String) : VolumeInfo :=
  match extraire_contenance_avancee contenance_str with
  | (fmt, v, u) =>
    let vu : ℚ × String :=
      if u = "CL" then (v / 100, "L")
      else if u = "ML" then (v / 1000, "L")
      else if u = "L" then (v, "L")
      else if u = "G" then (v / 1000, "KG")
      else if u = "KG" then (v, "KG")
      else (v, u)
    ⟨fmt, vu.1, quantite * vu.1, vu.2⟩

/-! ## Category classifier: `determiner_categorie_avancee` (app.py lines 428–457) -/

/-- The ordered category → keyword table, transcribed verbatim (Python dicts
    iterate in insertion order). -/
def categories_detaillees : List (String × List String) := [
  ("Spiritueux", ["gin", "whisky", "vodka", "rhum", "cognac", "armagnac",
    "get 27", "jack daniel", "jameson", "beefeater"]),
  ("Vins", ["vin", "bordeaux", "bourgogne", "champagne", "crémant",
    "prosecco", "cava", "muscadet", "côtes"]),
  ("Bières", ["bière", "beer", "lager", "ale", "ipa", "stout"]),
  ("Liqueurs & Apéritifs", ["liqueur", "cassis", "lillet", "martini",
    "campari", "aperol", "pastis", "ricard"]),
  ("Boissons Soft", ["coca", "pepsi", "limonade", "orangina", "schweppes",
    "perrier", "eau", "jus", "soda"]),
  ("Viande Rouge", ["boeuf", "veau", "agneau", "mouton", "entrecôte",
    "filet", "côte", "bavette"]),
  ("Viande Blanche", ["poulet", "dinde", "porc", "lapin", "canard"]),
  ("Poissons", ["saumon", "bar", "dorade", "cabillaud", "lieu", "sole", "turbot"]),
  ("Fruits de Mer", ["crevette", "homard", "huître", "moule", "coquille",
    "langoustine"]),
  ("Légumes Frais", ["salade", "tomate", "carotte", "courgette", "aubergine",
    "poivron", "concombre"]),
  ("Féculents", ["pomme de terre", "pâte", "riz", "semoule", "quinoa", "blé"]),
  ("Produits Laitiers", ["lait", "crème", "beurre", "yaourt", "fromage",
    "comté", "camembert", "roquefort"]),
  ("Epicerie", ["huile", "vinaigre", "sel", "poivre", "épice", "sauce",
    "moutarde", "mayonnaise"]),
  ("Desserts", ["glace", "sorbet", "tarte", "gâteau", "chocolat", "bonbon"])]

/-- First category (in table order) one of whose keywords is a substring of
    the lower-cased designation; `"Autre"` when none matches. -/
def firstCategorie : List (String × List String) → List Char → String
  | [], _ => "Autre"
  | (cat, mots) :: rest, dl =>
    if mots.any (fun mot => hasInfix dl mot.data) then cat
    else firstCategorie rest dl

/-- `determiner_categorie_avancee(designation)`. -/
def determiner_categorie_avancee (designation : String) : String :=
  if designation = "" then "Autre"
  else firstCategorie categories_detaillees (pyLowerStr designation).data

/-! ## Supplier identification: `detecter_fournisseur` (app.py lines 26–47) -/

/-- An apostrophe character, used inside one supplier signature string. -/
def apostrophe : String := String.singleton (Char.ofNat 39)

/-- The ordered supplier → signature table (dict insertion order). -/
def fournisseurs_connus : List (String × List String) := [
  ("Fougères Boissons", ["FOUGERES BOISSONS", "VTE-20", "LANDE DU BAS"]),
  ("Metro", ["METRO.FR", "METRO FRANCE", "N° FACTURE"]),
  ("Promocash", ["PROMOCASH", "PROMO CASH"]),
  ("Cave Les 3B", ["CAVE LES 3B", "SOMMELIERS-CAVISTES", "F99"]),
  ("TerreAzur", ["TERREAZUR", "TERRE AZUR", "POMONA"]),
  ("EpiSaveurs", ["EPISAVEURS", "EPI SAVEURS"]),
  ("Colin RHD", ["COLIN RHD", "TOQUE D" ++ apostrophe ++ "AZUR"]),
  ("Passionfroid", ["PASSIONFROID", "PASSION FROID"]),
  ("SVA Jean Roze", ["SVA JEAN ROZE", "JEAN ROZE", "SVA"])]

def firstFournisseur : List (String × List String) → List Char → String
  | [], _ => "Autre fournisseur"
  | (f, pats) :: rest, tu =>
    if pats.any (fun p => hasInfix tu p.data) then f else firstFournisseur rest tu

/-- `detecter_fournisseur(texte)`: first supplier one of whose signature
    substrings occurs in the upper-cased text, else `"Autre fournisseur"`. -/
def detecter_fournisseur (texte : String) : String :=
  firstFournisseur fournisseurs_connus (pyUpperStr texte).data

/-! ## `simplifier_designation` (app.py lines 410–426)

`re.sub(pat, '', s)` is modelled by a single left-to-right scan that removes
every (leftmost, non-overlapping) match; scanning resumes after a removed
match and the `\b` context is the character last consumed in the original
string, exactly as in Python's single pass.
-/

/-- One `re.sub` scan step: `matchAt prev cs` returns the number of characters
    the pattern consumes at this position (`prev` = preceding original char). -/
def reSubGo (matchAt : Option Char → List Char → Option ℕ) :
    ℕ → Option Char → List Char → List Char
  | 0, _, cs => cs
  | _ + 1, _, [] => []
  | fuel + 1, prev, c :: t =>
    match matchAt prev (c :: t) with
    | some n =>
      if n = 0 then c :: reSubGo matchAt fuel (some c) t
      else reSubGo matchAt fuel (((c :: t).take n).getLast? ) ((c :: t).drop n)
    | none => c :: reSubGo matchAt fuel (some c) t

/-- `re.sub(pattern, '', s)` for a pattern that always consumes ≥ 1 char. -/
def reSub (matchAt : Option Char → List Char → Option ℕ) (cs : List Char) : List Char :=
  reSubGo matchAt (cs.length + 1) none cs

/-- `\([^)]*\)`. -/
def parensAt (_ : Option Char) (cs : List Char) : Option ℕ :=
  match cs with
  | '(' :: rest =>
    let inside := rest.takeWhile (fun c => c ≠ ')')
    if inside.length < rest.length then some (inside.length + 2) else none
  | _ => none

/-- `\b\d{6,}\b`: a maximal digit run of length ≥ 6 with non-word context. -/
def longDigitsAt (prev : Option Char) (cs : List Char) : Option ℕ :=
  match prev with
  | some p => if isWordC p then none else longDigitsAtCore cs
  | none => longDigitsAtCore cs
where
  longDigitsAtCore (cs : List Char) : Option ℕ :=
    match cs.span isDigitC with
    | (d, r) =>
      if 6 ≤ d.length then
        match r with
        | [] => some d.length
        | c :: _ => if isWordC c then none else some d.length
      else none

/-- `REF[:\s]\S+`. -/
def refAt (_ : Option Char) (cs : List Char) : Option ℕ :=
  if leadsWith ['R', 'E', 'F'] cs then
    match cs.drop 3 with
    | c :: r =>
      if c = ':' || isSpaceC c then
        match r.span (fun x => !isSpaceC x) with
        | ([], _) => none
        | (w, _) => some (3 + 1 + w.length)
      else none
    | [] => none
  else none

/-- Does `\d+[,\.]\d*\s*(CL|ML|L|KG|G)$` match this suffix to the end? -/
def volEndMatches (cs : List Char) : Bool :=
  match cs.span isDigitC with
  | ([], _) => false
  | (_, s :: r2) =>
    if s = ',' || s = '.' then
      match (r2.dropWhile isDigitC).dropWhile isSpaceC with
      | r3 =>
        match tryPrefixes ["CL", "ML", "L", "KG", "G"] r3 with
        | some (_, []) => true
        | _ => false
    else false
  | (_, []) => false

/-- `re.sub(r'\d+[,\.]\d*\s*(CL|ML|L|KG|G)$', '', s)` — the anchor means the
    (single possible) match is a suffix; remove it at the leftmost position. -/
def subVolEnd : List Char → List Char
  | [] => []
  | c :: t => if volEndMatches (c :: t) then [] else c :: subVolEnd t

/-- Python `s.split()` (split on whitespace runs, dropping empties). -/
def wordsAux : List Char → List Char → List (List Char)
  | [], acc => if acc.isEmpty then [] else [acc.reverse]
  | c :: t, acc =>
    if isSpaceC c then
      if acc.isEmpty then wordsAux t [] else acc.reverse :: wordsAux t []
    else wordsAux t (c :: acc)

/-- `simplifier_designation(designation)`. -/
def simplifier_designation (designation : String) : String :=
  if designation = "" then ""
  else
    let a := reSub parensAt designation.data
    let b := reSub longDigitsAt a
    let c := reSub refAt b
    let d := subVolEnd c
    ⟨List.intercalate [' '] (wordsAux d [])⟩

/-! ## The product record -/

/-- One extracted product line (the dict appended by the analyzers); Python
    floats are exact rationals, `Nb Unités` is the Python `int`. -/
structure Produit where
  dateFacture : String
  numFacture : String
  fournisseur : String
  codeArticle : String
  designation : String
  designationSimplifiee : String
  categorie : String
  contenanceUnitaire : String
  nbUnites : ℕ
  volumeUnitaire : ℚ
  volumeTotal : ℚ
  unite : String
  prixUnitaire : ℚ
  montantHT : ℚ
  prixLitre : ℚ
deriving DecidableEq, Repr

/-- Python `texte.split('\n')` (exact split on the newline character,
    keeping empty pieces). -/
def splitNlAux : List Char → List Char → List String
  | acc, [] => [⟨acc.reverse⟩]
  | acc, c :: t =>
    if c = '\n' then ⟨acc.reverse⟩ :: splitNlAux [] t else splitNlAux (c :: acc) t

def splitNl (texte : String) : List String := splitNlAux [] texte.data

/-! ## `analyser_universel` (app.py lines 287–408) -/

/-- The record dict of `analyser_universel` (both strategies build the very
    same dict, app.py lines 357–373 and 390–406).  Python float arithmetic is
    modelled by exact rationals: the division `p / q` below stands for the
    binary64 division of line 370 WITHOUT its final rounding step — faithful
    for every branch-structure property, while the one-ulp rounding gap it
    hides is made explicit by `fl64Pos` where it matters (claim C10). -/
def mkUniversalRecord (date num fourn code dsg : String) (q : ℕ) (p : ℚ) : Produit :=
  let ci := calculer_volume_total (q : ℚ) dsg
  { dateFacture := date
    numFacture := num
    fournisseur := fourn
    codeArticle := code
    designation := dsg
    designationSimplifiee := simplifier_designation dsg
    categorie := determiner_categorie_avancee dsg
    contenanceUnitaire := ci.contenance_format
    nbUnites := q
    volumeUnitaire := ci.volume_unitaire
    volumeTotal := ci.volume_total
    unite := ci.unite
    prixUnitaire := if 0 < q then p / (q : ℚ) else p
    montantHT := p
    prixLitre := if 0 < ci.volume_unitaire ∧ 0 < q then (p / (q : ℚ)) / ci.volume_unitaire else 0 }

/-- `^\d{3,}` as a prefix test (`re.match`, no anchor at the end). -/
def startsWith3Digits (s : String) : Bool :=
  match s.data with
  | a :: b :: c :: _ => isDigitC a && isDigitC b && isDigitC c
  | _ => false

/-- Full match of `^[\d,\.]+$`. -/
def isNumPunct (s : String) : Bool :=
  s ≠ "" && s.data.all (fun c => isDigitC c || c = ',' || c = '.')

/-- Full match of `^\d+[,\.]\d{2}$`. -/
def isPriceCell (s : String) : Bool :=
  match s.data.span isDigitC with
  | ([], _) => false
  | (_, [sep, a, b]) => (sep = ',' || sep = '.') && isDigitC a && isDigitC b
  | _ => false

/-- Full match of `^\d+[,\.]\d{2,4}$`. -/
def isPriceCell24 (s : String) : Bool :=
  match s.data.span isDigitC with
  | ([], _) => false
  | (_, sep :: fp) =>
    (sep = ',' || sep = '.') && fp.all isDigitC && 2 ≤ fp.length && fp.length ≤ 4
  | _ => false

/-- Full match of `^\d{7}$`. -/
def is7Digits (s : String) : Bool := s.data.length = 7 && s.data.all isDigitC

/-- Full match of `^\d{6,}$`. -/
def is6PlusDigits (s : String) : Bool := 6 ≤ s.data.length && s.data.all isDigitC

/-- State of the per-cell scan of the table strategy (app.py lines 330–352). -/
structure ScanState where
  code : String
  desig : Option String
  prix : Option ℚ
  quantite : ℕ
deriving DecidableEq, Repr

/-- One iteration of `for i, cell in enumerate(row)` of the table strategy:
    skip falsy cells, then the `if/elif` classification chain. -/
def scanCellUni (st : ScanState) (ic : ℕ × Option String) : ScanState :=
  match ic.2 with
  | none => st
  | some s0 =>
    if s0 = "" then st
    else
      let s := stripStr s0
      if ic.1 = 0 && startsWith3Digits s then { st with code := s }
      else if !isNumPunct s && 3 < s.length then
        match st.desig with
        | none => { st with desig := some s }
        | some d => if d.length < s.length then { st with desig := some s } else st
      else if isPriceCell s then { st with prix := some (parseDecStr s) }
      else if isDigitStr s && natOfDigits s.data < 100 then
        { st with quantite := natOfDigits s.data }
      else st

def scanCells (row : List (Option String)) : ScanState :=
  row.enum.foldl scanCellUni ⟨"", none, none, 1⟩

/-- One table row of strategy 1 of `analyser_universel` (app.py lines
    328–373): a row qualifies when it has ≥ 3 cells (`if row and len(row) >=
    3`), and produces a record when both a designation and a truthy (non-zero)
    price were scanned. -/
def universalTableRow (date num fourn : String) (row : List (Option String)) :
    Option Produit :=
  if 3 ≤ row.length then
    match (scanCells row).desig, (scanCells row).prix with
    | some dsg, some p =>
      if p = 0 then none
      else some (mkUniversalRecord date num fourn (scanCells row).code dsg
        (scanCells row).quantite p)
    | _, _ => none
  else none

/-! ### Strategy 2: `^(?:(\d{3,})\s+)?(.+?)\s+(\d{1,3})\s+(\d+[,\.]\d{2})` -/

/-- `(\d+[,\.]\d{2})` at a position: a maximal digit run, a separator and two
    digits (whatever follows is outside the group). -/
def priceAt (cs : List Char) : Option ℚ :=
  match cs.span isDigitC with
  | ([], _) => none
  | (d, sep :: a :: b :: _) =>
    if (sep = ',' || sep = '.') && isDigitC a && isDigitC b then some (decVal d [a, b])
    else none
  | _ => none

/-- `\s+(\d{1,3})\s+(\d+[,\.]\d{2})` after the lazy designation.  The
    quantity's digit run must itself have length ≤ 3: any shorter greedy take
    leaves a digit in front of the following `\s+`. -/
def glAfterDesig (cs : List Char) : Option (ℕ × ℚ) :=
  match cs.span isSpaceC with
  | ([], _) => none
  | (_, r) =>
    match r.span isDigitC with
    | ([], _) => none
    | (d, r2) =>
      if 3 < d.length then none
      else
        match r2.span isSpaceC with
        | ([], _) => none
        | (_, r3) => (priceAt r3).map (fun p => (natOfDigits d, p))

/-- The lazy `(.+?)` scan: grow the designation one character at a time
    (shortest first, `.` does not cross a newline) until the tail matches. -/
def glTailGo (acc : List Char) : List Char → Option (String × ℕ × ℚ)
  | [] => none
  | c :: t =>
    if c = '\n' then none
    else
      match glAfterDesig t with
      | some (q, p) => some (⟨acc ++ [c]⟩, q, p)
      | none => glTailGo (acc ++ [c]) t

/-- `re.match` of the generic product-line pattern, returning
    (code or "", designation.strip(), quantity, price).  The optional greedy
    `(?:(\d{3,})\s+)?` is tried first (with `\s+` backtracking), then skipped. -/
def glMatch (line : String) : Option (String × String × ℕ × ℚ) :=
  let cs := line.data
  let noCode : Option (String × String × ℕ × ℚ) :=
    (glTailGo [] cs).map (fun (dsg, q, p) => ("", stripStr dsg, q, p))
  match cs.span isDigitC with
  | (d, r) =>
    if 3 ≤ d.length then
      match r.span isSpaceC with
      | (sp, r2) =>
        match spacesBT (glTailGo []) sp r2 with
        | some (dsg, q, p) => some (⟨d⟩, stripStr dsg, q, p)
        | none => noCode
    else noCode

/-- One text line of strategy 2 of `analyser_universel` (app.py lines
    378–406). -/
def universalLineParse (date num fourn : String) (line : String) : Option Produit :=
  (glMatch line).map (fun g => mkUniversalRecord date num fourn g.1 g.2.1 g.2.2.1 g.2.2.2)

/-! ### Date and invoice-number extraction (app.py lines 291–323) -/

/-- Exactly `n` digits. -/
def takeNDigits : ℕ → List Char → Option (List Char × List Char)
  | 0, cs => some ([], cs)
  | _ + 1, [] => none
  | n + 1, c :: t =>
    if isDigitC c then (takeNDigits n t).map (fun dr => (c :: dr.1, dr.2)) else none

/-- Date core of patterns 1 and 2: two digits, a slash-or-dash
    separator, two digits, the separator class again, four digits. -/
def dateCoreAt (cs : List Char) : Option String :=
  match takeNDigits 2 cs with
  | some (d1, s1 :: r1) =>
    if s1 = '/' || s1 = '-' then
      match takeNDigits 2 r1 with
      | some (d2, s2 :: r2) =>
        if s2 = '/' || s2 = '-' then
          match takeNDigits 4 r2 with
          | some (d3, _) => some ⟨d1 ++ s1 :: d2 ++ s2 :: d3⟩
          | none => none
        else none
      | _ => none
    else none
  | _ => none

/-- `(\d{2}\.\d{2}\.\d{4})` at a position. -/
def dateDotAt (cs : List Char) : Option String :=
  match takeNDigits 2 cs with
  | some (d1, '.' :: r1) =>
    match takeNDigits 2 r1 with
    | some (d2, '.' :: r2) =>
      match takeNDigits 4 r2 with
      | some (d3, _) => some ⟨d1 ++ '.' :: d2 ++ '.' :: d3⟩
      | none => none
    | _ => none
  | _ => none

/-- Date pattern 1: the keyword alternation du, le, Date (IGNORECASE),
    then whitespace, then the slash-or-dash date core. -/
def dp1At (cs : List Char) : Option String :=
  let kw :=
    if ciLeadsWith ['D', 'U'] cs then some (cs.drop 2)
    else if ciLeadsWith ['L', 'E'] cs then some (cs.drop 2)
    else if ciLeadsWith ['D', 'A', 'T', 'E'] cs then some (cs.drop 4)
    else none
  match kw with
  | some r =>
    match r.span isSpaceC with
    | ([], _) => none
    | (_, r2) => dateCoreAt r2
  | none => none

/-- `.replace('-', '/').replace('.', '/')`. -/
def replDateSeps (s : String) : String :=
  ⟨s.data.map (fun c => if c = '-' || c = '.' then '/' else c)⟩

/-- The three date patterns of `analyser_universel`, searched in order. -/
def searchDateUniversel (texte : String) : Option String :=
  match reSearch dp1At texte.data with
  | some d => some (replDateSeps d)
  | none =>
    match reSearch dateCoreAt texte.data with
    | some d => some (replDateSeps d)
    | none => (reSearch dateDotAt texte.data).map replDateSeps

/-- Tail `\s*[:=]?\s*([A-Z0-9\-]+)` of the first invoice-number pattern. -/
def np1Cont (r : List Char) : Option String :=
  let r1 := r.dropWhile isSpaceC
  let r2 :=
    match r1 with
    | c :: t => if c = ':' || c = '=' then t else r1
    | [] => r1
  match (r2.dropWhile isSpaceC).span isNumClassC with
  | ([], _) => none
  | (g, _) => some ⟨g⟩

/-- `(?:FACTURE|N°|NUM)\s*(?:N°)?\s*[:=]?\s*([A-Z0-9\-]+)` (case-sensitive;
    the optional `N°` is greedy, with backtracking to skipping it). -/
def np1At (cs : List Char) : Option String :=
  let kw :=
    if leadsWith "FACTURE".data cs then some (cs.drop 7)
    else if leadsWith "N°".data cs then some (cs.drop 2)
    else if leadsWith "NUM".data cs then some (cs.drop 3)
    else none
  match kw with
  | some rest =>
    let r2 := rest.dropWhile isSpaceC
    match (if leadsWith "N°".data r2 then np1Cont (r2.drop 2) else none) with
    | some g => some g
    | none => np1Cont r2
  | none => none

/-- `([A-Z]{1,3}\d{6,})`: greedy letter count 3, 2, 1 with backtracking. -/
def np2Try (k : ℕ) (cs : List Char) : Option String :=
  match takeNAlpha k cs with
  | some (ls, r) =>
    match r.span isDigitC with
    | (d, _) => if 6 ≤ d.length then some ⟨ls ++ d⟩ else none
  | none => none
where
  takeNAlpha : ℕ → List Char → Option (List Char × List Char)
    | 0, cs => some ([], cs)
    | _ + 1, [] => none
    | n + 1, c :: t =>
      if c.isUpper then (takeNAlpha n t).map (fun dr => (c :: dr.1, dr.2)) else none

def np2At (cs : List Char) : Option String :=
  match np2Try 3 cs with
  | some g => some g
  | none =>
    match np2Try 2 cs with
    | some g => some g
    | none => np2Try 1 cs

/-- `(\d{8,})`. -/
def np3At (cs : List Char) : Option String :=
  match cs.span isDigitC with
  | (d, _) => if 8 ≤ d.length then some ⟨d⟩ else none

/-- The three invoice-number patterns, searched in order. -/
def searchNumUniversel (texte : String) : Option String :=
  match reSearch np1At texte.data with
  | some g => some g
  | none =>
    match reSearch np2At texte.data with
    | some g => some g
    | none => reSearch np3At texte.data

/-! ### The strategy cascade -/

def concatAll {α : Type} (ls : List (List α)) : List α := ls.foldr (· ++ ·) []

/-- Strategy 1 (tables): `for table in tables: for row in table: ...`. -/
def universel_strategie1 (date num fourn : String)
    (tables : List (List (List (Option String)))) : List Produit :=
  concatAll (tables.map (fun tbl => tbl.filterMap (universalTableRow date num fourn)))

/-- Strategy 2 (text lines). -/
def universel_strategie2 (date num fourn texte : String) : List Produit :=
  (splitNl texte).filterMap (universalLineParse date num fourn)

/-- `analyser_universel(texte, tables, fournisseur)`.  The wall-clock defaults
    of the date (`datetime.now().strftime('%d/%m/%Y')`) and of the invoice
    number (`f"AUTO_{datetime.now().strftime('%Y%m%d%H%M')}"`) are the
    explicit parameters `nowDate` and `nowNum`.  Strategy 2 runs only when
    strategy 1 produced no record (`if not produits:`). -/
def analyser_universel (texte : String) (tables : List (List (List (Option String))))
    (fourn nowDate nowNum : String) : List Produit :=
  let date := (searchDateUniversel texte).getD nowDate
  let num := (searchNumUniversel texte).getD ("AUTO_" ++ nowNum)
  let p1 := universel_strategie1 date num fourn tables
  if p1.isEmpty then universel_strategie2 date num fourn texte else p1

/-! ## `analyser_fougeres_avance` (app.py lines 118–215) -/

/-- Fougères metadata: search for `du` + whitespace + a slash date. -/
def fgDateAt (cs : List Char) : Option String :=
  if leadsWith ['d', 'u'] cs then
    match (cs.drop 2).span isSpaceC with
    | ([], _) => none
    | (_, r2) =>
      match takeNDigits 2 r2 with
      | some (d1, '/' :: r3) =>
        match takeNDigits 2 r3 with
        | some (d2, '/' :: r4) =>
          match takeNDigits 4 r4 with
          | some (d3, _) => some ⟨d1 ++ '/' :: d2 ++ '/' :: d3⟩
          | none => none
        | _ => none
      | _ => none
  else none

def fougeresDate (texte : String) : Option String := reSearch fgDateAt texte.data

/-- `VTE-(\d+)`, returned as `f"VTE-{g1}"`. -/
def fgNumAt (cs : List Char) : Option String :=
  if leadsWith "VTE-".data cs then
    match (cs.drop 4).span isDigitC with
    | ([], _) => none
    | (d, _) => some ("VTE-" ++ ⟨d⟩)
  else none

def fougeresNum (texte : String) : Option String := reSearch fgNumAt texte.data

/-- One iteration of the cell loop of the Fougères table strategy (app.py
    lines 144–156), on the running `(quantite, prix_unitaire, montant)`. -/
def fougeresCellStep (st : ℕ × ℚ × ℚ) (cell : Option String) : ℕ × ℚ × ℚ :=
  match cell with
  | none => st
  | some s0 =>
    if s0 = "" then st
    else
      let s := stripStr s0
      if isDigitStr s && natOfDigits s.data < 1000 then (natOfDigits s.data, st.2.1, st.2.2)
      else if isPriceCell24 s then
        if st.2.1 = 0 then (st.1, parseDecStr s, st.2.2)
        else (st.1, st.2.1, parseDecStr s)
      else st

/-- The cell scan over `row[2:]` starting from `(1, 0, 0)`. -/
def fougeresScan (cells : List (Option String)) : ℕ × ℚ × ℚ :=
  cells.foldl fougeresCellStep (1, 0, 0)

/-- `if montant == 0 and prix_unitaire > 0: montant = prix_unitaire * quantite`. -/
def fougeresReconcile (st : ℕ × ℚ × ℚ) : ℕ × ℚ × ℚ :=
  if st.2.2 = 0 ∧ 0 < st.2.1 then (st.1, st.2.1, st.2.1 * (st.1 : ℚ)) else st

/-- The record dict of `analyser_fougeres_avance` (both strategies build the
    same dict, app.py lines 164–180 and 197–213). -/
def mkFougeresRecord (date num code dsg : String) (q : ℕ) (p m : ℚ) : Produit :=
  let ci := calculer_volume_total (q : ℚ) dsg
  { dateFacture := date
    numFacture := num
    fournisseur := "Fougères Boissons"
    codeArticle := code
    designation := dsg
    designationSimplifiee := simplifier_designation dsg
    categorie := determiner_categorie_avancee dsg
    contenanceUnitaire := ci.contenance_format
    nbUnites := q
    volumeUnitaire := ci.volume_unitaire
    volumeTotal := ci.volume_total
    unite := ci.unite
    prixUnitaire := p
    montantHT := m
    prixLitre := if 0 < ci.volume_unitaire then p / ci.volume_unitaire else 0 }

/-- One table row of the Fougères table strategy (app.py lines 132–180):
    the row must be non-empty with ≥ 5 cells and a truthy first cell that is
    exactly seven digits; `designation = str(row[1]) if row[1] else ""`. -/
def fougeresRow (date num : String) (row : List (Option String)) : Option Produit :=
  match row with
  | some s0 :: rest =>
    if 5 ≤ row.length && s0 ≠ "" && is7Digits s0 then
      let dsg := match rest.head? with
                 | some (some d) => d
                 | _ => ""
      let st := fougeresReconcile (fougeresScan (row.drop 2))
      some (mkFougeresRecord date num s0 dsg st.1 st.2.1 st.2.2)
    else none
  | _ => none

/-! ### Fougères strategy 2:
`^(\d{7})\s+(.+?)(?:\s+(\d+)\s+)?(?:\w{2,3}\s+)?(\d+[,\.]\d+)\s+(\d+[,\.]\d+)?`

After the lazy designation the pattern is matched component-wise, each
optional group greedy (used first, skipped on failure of the rest), keeping
Python's backtracking order.  Inside `\s+(\d+)\s+` and `\w{2,3}\s+` every
greedy run is forced (shrinking leaves a character the next component
rejects), except the trailing `\s+` runs which are followed by components
that cannot consume spaces either.
-/

/-- `(\d+[,\.]\d+)` (both fractional digits ≥ 1, maximal); returns the value
    and the rest. -/
def fgG4 (cs : List Char) : Option (ℚ × List Char) :=
  match cs.span isDigitC with
  | ([], _) => none
  | (d, sep :: r2) =>
    if sep = ',' || sep = '.' then
      match r2.span isDigitC with
      | ([], _) => none
      | (f, r3) => some (decVal d f, r3)
    else none
  | (_, []) => none

/-- `(\d+[,\.]\d+)\s+(\d+[,\.]\d+)?` — the price, mandatory whitespace, and
    the optional total (present iff it matches right there). -/
def fgCore (cs : List Char) : Option (ℚ × Option ℚ) :=
  match fgG4 cs with
  | none => none
  | some (p, r) =>
    match r.span isSpaceC with
    | ([], _) => none
    | (_, r2) => some (p, (fgG4 r2).map (·.1))

/-- `\s+(\d+)\s+` (the optional quantity group, all runs forced maximal). -/
def fgOpt1 (cs : List Char) : Option (ℕ × List Char) :=
  match cs.span isSpaceC with
  | ([], _) => none
  | (_, r) =>
    match r.span isDigitC with
    | ([], _) => none
    | (d, r2) =>
      match r2.span isSpaceC with
      | ([], _) => none
      | (_, r3) => some (natOfDigits d, r3)

/-- `\w{2,3}\s+` with the greedy count 3 then 2. -/
def fgOpt2 (cs : List Char) : Option (List Char) :=
  match fgOpt2Try 3 cs with
  | some r => some r
  | none => fgOpt2Try 2 cs
where
  takeNWord : ℕ → List Char → Option (List Char)
    | 0, cs => some cs
    | _ + 1, [] => none
    | n + 1, c :: t => if isWordC c then takeNWord n t else none
  fgOpt2Try (k : ℕ) (cs : List Char) : Option (List Char) :=
    match takeNWord k cs with
    | some r =>
      match r.span isSpaceC with
      | ([], _) => none
      | (_, r2) => some r2
    | none => none

/-- Everything after the lazy designation: optional quantity group (greedy),
    optional unit word (greedy), then the price core. -/
def fgAfter (cs : List Char) : Option (Option ℕ × ℚ × Option ℚ) :=
  let withO2 : List Char → Option (ℚ × Option ℚ) := fun r =>
    match fgOpt2 r with
    | some r2 =>
      match fgCore r2 with
      | some pm => some pm
      | none => fgCore r
    | none => fgCore r
  match fgOpt1 cs with
  | some (q, r) =>
    match withO2 r with
    | some (p, m) => some (some q, p, m)
    | none =>
      match withO2 cs with
      | some (p, m) => some (none, p, m)
      | none => none
  | none =>
    match withO2 cs with
    | some (p, m) => some (none, p, m)
    | none => none

/-- The lazy `(.+?)` growth for the Fougères line pattern. -/
def fgDesigGo (acc : List Char) : List Char → Option (String × Option ℕ × ℚ × Option ℚ)
  | [] => none
  | c :: t =>
    if c = '\n' then none
    else
      match fgAfter t with
      | some (q, p, m) => some (⟨acc ++ [c]⟩, q, p, m)
      | none => fgDesigGo (acc ++ [c]) t

/-- `re.match` of the Fougères line pattern: seven digits, whitespace (with
    backtracking), lazy designation, then `fgAfter`. -/
def fougeresLineMatch (line : String) :
    Option (String × String × Option ℕ × ℚ × Option ℚ) :=
  match takeNDigits 7 line.data with
  | some (d7, rest) =>
    match rest.span isSpaceC with
    | (sp, r2) =>
      match spacesBT (fgDesigGo []) sp r2 with
      | some (dsg, q, p, m) => some (⟨d7⟩, stripStr dsg, q, p, m)
      | none => none
  | none => none

/-- One text line of Fougères strategy 2 (app.py lines 185–213):
    `quantite = int(g3) if g3 else 1`,
    `montant = float(g5) if g5 else prix_unitaire * quantite`. -/
def fougeresLineParse (date num : String) (line : String) : Option Produit :=
  (fougeresLineMatch line).map (fun g =>
    let q := g.2.2.1.getD 1
    let p := g.2.2.2.1
    let m := g.2.2.2.2.getD (p * (q : ℚ))
    mkFougeresRecord date num g.1 g.2.1 q p m)

def fougeres_strategie1 (date num : String)
    (tables : List (List (List (Option String)))) : List Produit :=
  concatAll (tables.map (fun tbl => tbl.filterMap (fougeresRow date num)))

def fougeres_strategie2 (date num texte : String) : List Produit :=
  (splitNl texte).filterMap (fougeresLineParse date num)

/-- `analyser_fougeres_avance(texte, tables)`; `nowDate` is the wall-clock
    default used when no date pattern matches; the invoice-number default is
    the constant `"N/A"`.  Strategy 2 runs only on `if not produits:`. -/
def analyser_fougeres_avance (texte : String)
    (tables : List (List (List (Option String)))) (nowDate : String) : List Produit :=
  let date := (fougeresDate texte).getD nowDate
  let num := (fougeresNum texte).getD "N/A"
  let p1 := fougeres_strategie1 date num tables
  if p1.isEmpty then fougeres_strategie2 date num texte else p1

/-! ## `analyser_metro_avance` (app.py lines 217–285) -/

/-- `Date facture\s*:\s*(\d{2}-\d{2}-\d{4})` at a position. -/
def mDateAt (cs : List Char) : Option String :=
  if leadsWith "Date facture".data cs then
    match (cs.drop 12).dropWhile isSpaceC with
    | ':' :: r =>
      match takeNDigits 2 (r.dropWhile isSpaceC) with
      | some (d1, '-' :: r2) =>
        match takeNDigits 2 r2 with
        | some (d2, '-' :: r3) =>
          match takeNDigits 4 r3 with
          | some (d3, _) => some ⟨d1 ++ '-' :: d2 ++ '-' :: d3⟩
          | none => none
        | _ => none
      | _ => none
    | _ => none
  else none

/-- `(\d{2}/\d{2}/\d{4})` at a position (the Metro fallback date pattern). -/
def dateSlashAt (cs : List Char) : Option String :=
  match takeNDigits 2 cs with
  | some (d1, '/' :: r1) =>
    match takeNDigits 2 r1 with
    | some (d2, '/' :: r2) =>
      match takeNDigits 4 r2 with
      | some (d3, _) => some ⟨d1 ++ '/' :: d2 ++ '/' :: d3⟩
      | none => none
    | _ => none
  | _ => none

/-- The Metro date extraction (app.py lines 222–225), with the final
    `.replace('-', '/')`. -/
def metroDate (texte : String) : Option String :=
  match reSearch mDateAt texte.data with
  | some d => some ⟨d.data.map (fun c => if c = '-' then '/' else c)⟩
  | none => reSearch dateSlashAt texte.data

/-- Lazy `.*?(\d{8,})`: walk forward (never across a newline) until a maximal
    digit run of length ≥ 8 starts at the current point. -/
def lazyDigits8 : List Char → Option String
  | [] => none
  | c :: t =>
    match (c :: t).span isDigitC with
    | (d, _) =>
      if 8 ≤ d.length then some ⟨d⟩
      else if c = '\n' then none
      else lazyDigits8 t

/-- `(?:N°\s*FACTURE|FACTURE N°).*?(\d{8,})` at a position. -/
def mNumAt (cs : List Char) : Option String :=
  let kw :=
    if leadsWith "N°".data cs then
      match (cs.drop 2).dropWhile isSpaceC with
      | r => if leadsWith "FACTURE".data r then some (r.drop 7) else none
    else if leadsWith "FACTURE N°".data cs then some (cs.drop 10)
    else none
  match kw with
  | some r => lazyDigits8 r
  | none => none

def metroNum (texte : String) : Option String := reSearch mNumAt texte.data

/-- `(\d+[,\.]\d{2})` as group text. -/
def priceTokAt (cs : List Char) : Option String :=
  match cs.span isDigitC with
  | ([], _) => none
  | (d, sep :: a :: b :: _) =>
    if (sep = ',' || sep = '.') && isDigitC a && isDigitC b then some ⟨d ++ [sep, a, b]⟩
    else none
  | _ => none

/-- Lazy `(.+?)\s+(\d+[,\.]\d{2})` (metro patterns 1 and 2 tail piece). -/
def lazyDesigPrice (acc : List Char) : List Char → Option (String × String)
  | [] => none
  | c :: t =>
    if c = '\n' then none
    else
      match (match t.span isSpaceC with
             | ([], _) => none
             | (_, r) => priceTokAt r) with
      | some ptok => some (⟨acc ++ [c]⟩, ptok)
      | none => lazyDesigPrice (acc ++ [c]) t

/-- Metro pattern 1: `^(\d{10,13})\s+(\d{6,})\s+(.+?)\s+(\d+[,\.]\d{2})`.
    The leading digit run must have length 10–13 in full (a shorter greedy
    take leaves a digit in front of `\s+`), likewise the second run ≥ 6. -/
def mp1Match (cs : List Char) : Option (String × String × String × String) :=
  match cs.span isDigitC with
  | (d, r) =>
    if 10 ≤ d.length && d.length ≤ 13 then
      match r.span isSpaceC with
      | (sp, r2) =>
        spacesBT (fun t =>
          match t.span isDigitC with
          | (d2, r3) =>
            if 6 ≤ d2.length then
              match r3.span isSpaceC with
              | (sp2, r4) =>
                spacesBT (fun t2 =>
                  (lazyDesigPrice [] t2).map (fun dp => (⟨d⟩, ⟨d2⟩, dp.1, dp.2)))
                  sp2 r4
            else none) sp r2
    else none

/-- Tail of metro pattern 2 after the designation:
    `\s+(\d+[,\.]\d{2})\s+(\d+)`. -/
def mp2After (cs : List Char) : Option (String × String) :=
  match cs.span isSpaceC with
  | ([], _) => none
  | (_, r) =>
    match priceTokAt r with
    | none => none
    | some ptok =>
      match (r.drop ptok.length).span isSpaceC with
      | ([], _) => none
      | (_, r2) =>
        match r2.span isDigitC with
        | ([], _) => none
        | (d, _) => some (ptok, ⟨d⟩)

def mp2Desig (acc : List Char) : List Char → Option (String × String × String)
  | [] => none
  | c :: t =>
    if c = '\n' then none
    else
      match mp2After t with
      | some (ptok, dint) => some (⟨acc ++ [c]⟩, ptok, dint)
      | none => mp2Desig (acc ++ [c]) t

/-- Metro pattern 2: `^(\d{10,13})\s+(.+?)\s+(\d+[,\.]\d{2})\s+(\d+)`. -/
def mp2Match (cs : List Char) : Option (String × String × String × String) :=
  match cs.span isDigitC with
  | (d, r) =>
    if 10 ≤ d.length && d.length ≤ 13 then
      match r.span isSpaceC with
      | (sp, r2) =>
        spacesBT (fun t =>
          (mp2Desig [] t).map (fun g => (⟨d⟩, g.1, g.2.1, g.2.2))) sp r2
    else none

/-- Tail of metro pattern 3 after the designation: `\s+(\d+)\s+(\d+[,\.]\d{2})`. -/
def mp3After (cs : List Char) : Option (String × String) :=
  match cs.span isSpaceC with
  | ([], _) => none
  | (_, r) =>
    match r.span isDigitC with
    | ([], _) => none
    | (d, r2) =>
      match r2.span isSpaceC with
      | ([], _) => none
      | (_, r3) => (priceTokAt r3).map (fun p => (⟨d⟩, p))

def mp3Desig (acc : List Char) : List Char → Option (String × String × String)
  | [] => none
  | c :: t =>
    if c = '\n' then none
    else
      match mp3After t with
      | some (dint, ptok) => some (⟨acc ++ [c]⟩, dint, ptok)
      | none => mp3Desig (acc ++ [c]) t

/-- Metro pattern 3: `^(\d{6,})\s+(.+?)\s+(\d+)\s+(\d+[,\.]\d{2})`. -/
def mp3Match (cs : List Char) : Option (String × String × String × String) :=
  match cs.span isDigitC with
  | (d, r) =>
    if 6 ≤ d.length then
      match r.span isSpaceC with
      | (sp, r2) =>
        spacesBT (fun t =>
          (mp3Desig [] t).map (fun g => (⟨d⟩, g.1, g.2.1, g.2.2))) sp r2
    else none

/-- The pattern loop plus the group disambiguation of `analyser_metro_avance`
    (app.py lines 234–256): all three patterns have four groups, so `code =
    g0` and, when `g1` fully matches `^\d{6,}$`, `designation = g2` and
    `prix = float(g3)`, else `designation = g1` and `prix = float(g2)`. -/
def metroLineMatch (line : String) : Option (String × String × ℚ) :=
  let groups :=
    match mp1Match line.data with
    | some g => some g
    | none =>
      match mp2Match line.data with
      | some g => some g
      | none => mp3Match line.data
  groups.map (fun g =>
    if is6PlusDigits g.2.1 then (g.1, g.2.2.1, parseDecStr g.2.2.2)
    else (g.1, g.2.1, parseDecStr g.2.2.1))

/-- `(\d+)\s*(?:PC|UN|X)` at a position (quantity inside the designation). -/
def mQuantAt (cs : List Char) : Option ℕ :=
  match cs.span isDigitC with
  | ([], _) => none
  | (d, r) =>
    match tryPrefixes ["PC", "UN", "X"] (r.dropWhile isSpaceC) with
    | some _ => some (natOfDigits d)
    | none => none

/-- The record dict of `analyser_metro_avance` (app.py lines 266–282).  As in
    `mkUniversalRecord`, the rational division `p / q` models the binary64
    division of line 279 without its final rounding (see `fl64Pos`). -/
def mkMetroRecord (fourn date num code dsg : String) (q : ℕ) (p : ℚ) : Produit :=
  let ci := calculer_volume_total (q : ℚ) dsg
  { dateFacture := date
    numFacture := num
    fournisseur := fourn
    codeArticle := code
    designation := dsg
    designationSimplifiee := simplifier_designation dsg
    categorie := determiner_categorie_avancee dsg
    contenanceUnitaire := ci.contenance_format
    nbUnites := q
    volumeUnitaire := ci.volume_unitaire
    volumeTotal := ci.volume_total
    unite := ci.unite
    prixUnitaire := if 0 < q then p / (q : ℚ) else p
    montantHT := p
    prixLitre := if 0 < ci.volume_unitaire ∧ 0 < q then (p / (q : ℚ)) / ci.volume_unitaire else 0 }

/-- One text line of `analyser_metro_avance`. -/
def metroLineParse (texte date num : String) (line : String) : Option Produit :=
  (metroLineMatch line).map (fun g =>
    let q := (reSearch mQuantAt g.2.1.data).getD 1
    mkMetroRecord (detecter_fournisseur texte) date num g.1 g.2.1 q g.2.2)

/-- `analyser_metro_avance(texte, tables)` — the tables argument is unused by
    the Python method; `nowDate` is the wall-clock date default. -/
def analyser_metro_avance (texte : String)
    (_tables : List (List (List (Option String)))) (nowDate : String) : List Produit :=
  let date := (metroDate texte).getD nowDate
  let num := (metroNum texte).getD "N/A"
  (splitNl texte).filterMap (metroLineParse texte date num)

/-! ## The total-only fallback of `analyser_pdf` (app.py lines 490–526) -/

/-- `float(...)` on the cleaned group text (spaces removed, comma → dot):
    `none` models the `ValueError` path (caught by the surrounding `try`,
    yielding no record). -/
def pyFloatOpt (s : String) : Option ℚ :=
  let cs := ((s.data.dropWhile isSpaceC).reverse.dropWhile isSpaceC).reverse
  match cs.span isDigitC with
  | (ip, []) => if ip.isEmpty then none else some (natOfDigits ip : ℚ)
  | (ip, '.' :: fp) =>
    if fp.all isDigitC && (!ip.isEmpty || !fp.isEmpty) then some (decVal ip fp)
    else none
  | _ => none

/-- `[\d\s]+[,\.]\d{2}` at a position: the run must be maximal (a shorter
    greedy take leaves a run character where the separator is required), then
    the separator and two digits; returns the full group text. -/
def totalRunAt (cs : List Char) : Option (List Char) :=
  match cs.span (fun c => isDigitC c || isSpaceC c) with
  | ([], _) => none
  | (run, sep :: a :: b :: _) =>
    if (sep = ',' || sep = '.') && isDigitC a && isDigitC b then some (run ++ [sep, a, b])
    else none
  | _ => none

/-- Lazy `.*?([\d\s]+[,\.]\d{2})`: `.` cannot cross a newline, but the
    captured run itself may start with (and contain) one. -/
def lazyTotal : List Char → Option (List Char)
  | [] => none
  | c :: t =>
    match totalRunAt (c :: t) with
    | some g => some g
    | none => if c = '\n' then none else lazyTotal t

/-- `(?:TOTAL|NET|TTC)` with `re.IGNORECASE`, then the lazy amount. -/
def totalKwAt (cs : List Char) : Option (List Char) :=
  let kw :=
    if ciLeadsWith "TOTAL".data cs then some (cs.drop 5)
    else if ciLeadsWith "NET".data cs then some (cs.drop 3)
    else if ciLeadsWith "TTC".data cs then some (cs.drop 3)
    else none
  match kw with
  | some r => lazyTotal r
  | none => none

/-- The grand-total scan of `analyser_pdf` (line 505) composed with the float
    conversion of line 507 (`montant_match.group(1).replace(' ',
    '').replace(',', '.')`). -/
def searchMontantTotal (texte : String) : Option ℚ :=
  match reSearch totalKwAt texte.data with
  | some g =>
    pyFloatOpt ⟨(g.filter (fun c => c ≠ ' ')).map (fun c => if c = ',' then '.' else c)⟩
  | none => none

/-- A final record as enriched by `analyser_pdf` (lines 490–497): the source
    file name and the cost-per-volume metric are attached to every product. -/
structure ProduitFinal extends Produit where
  fichierSource : String
  coutParUniteVolume : ℚ
deriving DecidableEq, Repr

def enrichirProduit (nomFichier : String) (p : Produit) : ProduitFinal :=
  { toProduit := p
    fichierSource := nomFichier
    coutParUniteVolume := if 0 < p.volumeTotal then p.montantHT / p.volumeTotal else 0 }

/-- The `EXTRACTION_BASIQUE` sentinel dict (app.py lines 508–526). -/
def extraction_secours (texte fourn nowDate nomFichier : String) : List ProduitFinal :=
  match searchMontantTotal texte with
  | some montant =>
    [{ dateFacture := nowDate
       numFacture := "EXTRACTION_BASIQUE"
       fournisseur := fourn
       codeArticle := ""
       designation := "Montant total facture - " ++ fourn
       designationSimplifiee := "Total facture"
       categorie := "Autre"
       contenanceUnitaire := "1PC"
       nbUnites := 1
       volumeUnitaire := 1
       volumeTotal := 1
       unite := "PC"
       prixUnitaire := montant
       montantHT := montant
       prixLitre := 0
       fichierSource := nomFichier
       coutParUniteVolume := 0 }]
  | none => []

/-- The post-extraction phase of `analyser_pdf` (app.py lines 490–526):
    enrich every extracted product, and when none was extracted fall back to
    the single total-only sentinel (when the grand-total scan succeeds). -/
def analyser_pdf_post (produits : List Produit) (texte fourn nowDate nomFichier : String) :
    List ProduitFinal :=
  if produits.isEmpty then extraction_secours texte fourn nowDate nomFichier
  else produits.map (enrichirProduit nomFichier)

/-! ## Spec-side canonicalization (for claim C4, amended) -/

/-- Canonical unit as the code computes it: CL/ML/L → L, G/KG → KG, anything
    else keeps its own unit token. -/
def canonical_unit_code (u : String) : String :=
  if u = "CL" then "L"
  else if u = "ML" then "L"
  else if u = "L" then "L"
  else if u = "G" then "KG"
  else if u = "KG" then "KG"
  else u

/-- Canonical per-unit value as the code computes it. -/
def canonical_value_code (u : String) (v : ℚ) : ℚ :=
  if u = "CL" then v / 100
  else if u = "ML" then v / 1000
  else if u = "L" then v
  else if u = "G" then v / 1000
  else if u = "KG" then v
  else v

/-! ## Claim theorems -/

/-- C4 (counterexample): the claim says every unit other than CL/ML/KG/L is
    canonicalized to PC; but for the description `"3BTL"` the parsed unit is
    BTL and the canonical unit stays BTL, not PC. -/
theorem C4_counterexample :
    (calculer_volume_total 1 "3BTL").unite = "BTL" ∧ ("BTL" : String) ≠ "PC" :=
  ⟨rfl, by decide⟩

/-- C4 (amended): canonical-volume conversion divides CL by 100 and ML by
    1000 with canonical unit L, divides G by 1000 with canonical unit KG,
    passes KG and L through unchanged, and passes every other unit kind
    through as a dimensionless count that keeps its own unit token (PC stays
    PC, BTL stays BTL) — not always PC. -/
theorem C4_canonical_conversion (q : ℚ) (s fmt u : String) (v : ℚ)
    (h : extraire_contenance_avancee s = (fmt, v, u)) :
    calculer_volume_total q s =
      ⟨fmt, canonical_value_code u v, q * canonical_value_code u v, canonical_unit_code u⟩ := by
  unfold calculer_volume_total
  rw [h]
  by_cases h1 : u = "CL" <;> by_cases h2 : u = "ML" <;> by_cases h3 : u = "L" <;>
    by_cases h4 : u = "G" <;> by_cases h5 : u = "KG" <;>
    simp_all [canonical_unit_code, canonical_value_code]

/-- C4 (witness): the amended theorem applied at the concrete description
    `"3BTL"`. -/
theorem C4_witness :
    calculer_volume_total 1 "3BTL" = ⟨"3BTL", 3, 3, "BTL"⟩ := by
  have h := C4_canonical_conversion 1 "3BTL" "3BTL" "BTL" 3 rfl
  simpa [canonical_unit_code, canonical_value_code] using h

/-- C6: when none of the six ordered packaging patterns matches anywhere in
    the upper-cased description, the parser returns the default triple
    ("1PC", 1, PC) and the canonical volume is 1 PC. -/
theorem C6_default_packaging (s : String)
    (h1 : reSearch p1At (pyUpperStr s).data = none)
    (h2 : reSearch p2At (pyUpperStr s).data = none)
    (h3 : reSearch p3At (pyUpperStr s).data = none)
    (h4 : reSearch p4At (pyUpperStr s).data = none)
    (h5 : reSearch p5At (pyUpperStr s).data = none)
    (h6 : reSearch p6At (pyUpperStr s).data = none) :
    extraire_contenance_avancee s = ("1PC", 1, "PC")
      ∧ calculer_volume_total 1 s = ⟨"1PC", 1, 1, "PC"⟩ := by
  have he : extraire_contenance_avancee s = ("1PC", 1, "PC") := by
    by_cases hs : s = ""
    · simp [extraire_contenance_avancee, hs]
    · simp [extraire_contenance_avancee, hs, h1, h2, h3, h4, h5, h6]
  refine ⟨he, ?_⟩
  unfold calculer_volume_total
  rw [he]
  simp

/-- C6 (witness): the concrete description `"PRODUIT SANS FORMAT"` matches no
    pattern and yields the default. -/
theorem C6_witness :
    extraire_contenance_avancee "PRODUIT SANS FORMAT" = ("1PC", 1, "PC")
      ∧ calculer_volume_total 1 "PRODUIT SANS FORMAT" = ⟨"1PC", 1, 1, "PC"⟩ :=
  C6_default_packaging "PRODUIT SANS FORMAT" rfl rfl rfl rfl rfl rfl

/-- C7: the packaging patterns are tried in a fixed order on the upper-cased
    description and the multiplier×size×unit pattern has priority (whenever
    it matches anywhere, its formatter decides the result); consequently
    `"GIN 6X75CL"` yields format "6x75CL" with value 450 CL, i.e. canonical
    volume 9/2 = 4.5 L. -/
theorem C7_pattern_priority :
    (∀ (s : String) (g : String × String × String),
        reSearch p1At (pyUpperStr s).data = some g →
        extraire_contenance_avancee s = p1Formatter g)
      ∧ extraire_contenance_avancee "GIN 6X75CL" = ("6x75CL", 450, "CL")
      ∧ calculer_volume_total 1 "GIN 6X75CL" = ⟨"6x75CL", 9/2, 9/2, "L"⟩ := by
  refine ⟨?_, ?_, ?_⟩
  · intro s g h
    by_cases hs : s = ""
    · subst hs
      have h0 : reSearch p1At (pyUpperStr "").data = none := rfl
      rw [h0] at h
      exact Option.noConfusion h
    · simp [extraire_contenance_avancee, hs, h]
  · show p1Formatter ("6", "75", "CL") = ("6x75CL", 450, "CL")
    unfold p1Formatter
    rw [show parseDecStr "6" = (6 : ℚ) from rfl, show parseDecStr "75" = (75 : ℚ) from rfl]
    norm_num
    rfl
  · show VolumeInfo.mk "6x75CL" (parseDecStr "6" * parseDecStr "75" / 100)
      (1 * (parseDecStr "6" * parseDecStr "75" / 100)) "L" = ⟨"6x75CL", 9/2, 9/2, "L"⟩
    rw [show parseDecStr "6" = (6 : ℚ) from rfl, show parseDecStr "75" = (75 : ℚ) from rfl]
    norm_num [VolumeInfo.mk.injEq]

/-- C7 (witness): the priority statement applied at `"GIN 6X75CL"`, whose
    first-pattern search succeeds with groups ("6", "75", "CL"). -/
theorem C7_witness :
    extraire_contenance_avancee "GIN 6X75CL" = p1Formatter ("6", "75", "CL") :=
  C7_pattern_priority.1 "GIN 6X75CL" ("6", "75", "CL") rfl

/-- C3 (counterexample): `classify("CRÈME DE CASSIS")` returns the label
    "Liqueurs & Apéritifs" (matched through the keyword "cassis"), which is
    not the Spirits label "Spiritueux" the claim names (nor Dairy). -/
theorem C3_counterexample :
    determiner_categorie_avancee "CRÈME DE CASSIS" = "Liqueurs & Apéritifs"
      ∧ determiner_categorie_avancee "CRÈME DE CASSIS" ≠ "Spiritueux"
      ∧ determiner_categorie_avancee "CRÈME DE CASSIS" ≠ "Produits Laitiers" :=
  ⟨rfl, by decide, by decide⟩

lemma firstCategorie_split (dl : List Char) (pre post : List (String × List String))
    (cat : String) (mots : List String)
    (hpre : ∀ p ∈ pre, p.2.any (fun mot => hasInfix dl mot.data) = false)
    (hm : mots.any (fun mot => hasInfix dl mot.data) = true) :
    firstCategorie (pre ++ (cat, mots) :: post) dl = cat := by
  induction pre with
  | nil => simp [firstCategorie, hm]
  | cons p pre' ih =>
    obtain ⟨c0, m0⟩ := p
    have h0 := hpre (c0, m0) (List.mem_cons_self _ _)
    simp only [List.cons_append, firstCategorie, h0, Bool.false_eq_true, if_false]
    exact ih (fun p hp => hpre p (List.mem_cons_of_mem _ hp))

/-- C3 (amended): the category classifier checks categories in the fixed
    registration order and returns the first category one of whose keywords
    occurs as a substring of the lower-cased description; in particular
    `classify("CRÈME DE CASSIS")` returns the "Liqueurs & Apéritifs" label
    (via the keyword "cassis"), not Dairy, and not the Spirits label either. -/
theorem C3_first_matching_category_wins (d : String)
    (pre post : List (String × List String)) (cat : String) (mots : List String)
    (hsplit : categories_detaillees = pre ++ (cat, mots) :: post)
    (hne : d ≠ "")
    (hpre : ∀ p ∈ pre, ∀ mot ∈ p.2, hasInfix (pyLowerStr d).data mot.data = false)
    (hmatch : ∃ mot ∈ mots, hasInfix (pyLowerStr d).data mot.data = true) :
    determiner_categorie_avancee d = cat := by
  unfold determiner_categorie_avancee
  rw [if_neg hne, hsplit]
  refine firstCategorie_split _ _ _ _ _ ?_ ?_
  · intro p hp
    rw [List.any_eq_false]
    intro mot hmot
    simp [hpre p hp mot hmot]
  · rw [List.any_eq_true]
    obtain ⟨mot, hmem, hinf⟩ := hmatch
    exact ⟨mot, hmem, hinf⟩

/-- C3 (witness): the amended theorem applied at `"CRÈME DE CASSIS"`, with
    the three categories registered before "Liqueurs & Apéritifs" shown not
    to match and "cassis" shown to match. -/
theorem C3_witness :
    determiner_categorie_avancee "CRÈME DE CASSIS" = "Liqueurs & Apéritifs" :=
  C3_first_matching_category_wins "CRÈME DE CASSIS"
    (categories_detaillees.take 3) (categories_detaillees.drop 4)
    "Liqueurs & Apéritifs"
    ["liqueur", "cassis", "lillet", "martini", "campari", "aperol", "pastis", "ricard"]
    (by rfl) (by decide) (by decide) ⟨"cassis", by decide, by decide⟩

/-! ### Evaluation lemmas for concrete decimal literals (the Rat operations
of Batteries are irreducible, so concrete values are established through
`norm_num` rather than by kernel reduction). -/

lemma decVal_eval (ip fp : List Char) (a b k : ℕ)
    (ha : natOfDigits ip = a) (hb : natOfDigits fp = b) (hk : fp.length = k) :
    decVal ip fp = (a : ℚ) + (b : ℚ) / (10 : ℚ) ^ k := by
  rw [decVal, ha, hb, hk]

lemma parse_1499 : parseDecStr "14,99" = 1499 / 100 := by
  rw [show parseDecStr "14,99" = decVal ['1', '4'] ['9', '9'] from rfl,
    decVal_eval _ _ 14 99 2 (by decide) (by decide) (by decide)]
  norm_num

lemma parse_2998 : parseDecStr "29,98" = 1499 / 50 := by
  rw [show parseDecStr "29,98" = decVal ['2', '9'] ['9', '8'] from rfl,
    decVal_eval _ _ 29 98 2 (by decide) (by decide) (by decide)]
  norm_num

lemma parse_1000 : parseDecStr "10,00" = 10 := by
  rw [show parseDecStr "10,00" = decVal ['1', '0'] ['0', '0'] from rfl,
    decVal_eval _ _ 10 0 2 (by decide) (by decide) (by decide)]
  norm_num

lemma decVal_2000 : decVal ['2', '0'] ['0', '0'] = 20 := by
  rw [decVal_eval _ _ 20 0 2 (by decide) (by decide) (by decide)]
  norm_num

lemma parse_1499_ne : parseDecStr "14,99" ≠ 0 := by rw [parse_1499]; norm_num

lemma parse_2998_ne : parseDecStr "29,98" ≠ 0 := by rw [parse_2998]; norm_num

/-- C1 (counterexample): in the Fougères table strategy, a row carrying the
    two price candidates in the order 14,99 then 29,98 yields unit price
    14.99 / total 29.98, while the swapped order yields unit price 29.98 /
    total 14.99 — the two results differ, so reconciliation is not
    order-independent and no larger-is-total rule is applied. -/
theorem C1_counterexample :
    (fougeresRow "01/01/2024" "VTE-1"
        [some "1234567", some "PRODUIT A", some "2", some "14,99", some "29,98"]).map
        (fun r => (r.prixUnitaire, r.montantHT)) = some ((1499 : ℚ) / 100, (1499 : ℚ) / 50)
      ∧ (fougeresRow "01/01/2024" "VTE-1"
        [some "1234567", some "PRODUIT A", some "2", some "29,98", some "14,99"]).map
        (fun r => (r.prixUnitaire, r.montantHT)) = some ((1499 : ℚ) / 50, (1499 : ℚ) / 100)
      ∧ ((1499 : ℚ) / 100, (1499 : ℚ) / 50) ≠ ((1499 : ℚ) / 50, (1499 : ℚ) / 100) := by
  refine ⟨?_, ?_, ?_⟩
  · have h1 : fougeresScan [some "2", some "14,99", some "29,98"] =
        if parseDecStr "14,99" = 0 then (2, parseDecStr "29,98", (0 : ℚ))
        else (2, parseDecStr "14,99", parseDecStr "29,98") := rfl
    rw [if_neg parse_1499_ne] at h1
    have h2 : fougeresReconcile (2, parseDecStr "14,99", parseDecStr "29,98") =
        (2, parseDecStr "14,99", parseDecStr "29,98") := by
      rw [fougeresReconcile, if_neg]
      intro hand
      exact parse_2998_ne hand.1
    have h3 : fougeresRow "01/01/2024" "VTE-1"
        [some "1234567", some "PRODUIT A", some "2", some "14,99", some "29,98"] =
        some (mkFougeresRecord "01/01/2024" "VTE-1" "1234567" "PRODUIT A"
          (fougeresReconcile (fougeresScan [some "2", some "14,99", some "29,98"])).1
          (fougeresReconcile (fougeresScan [some "2", some "14,99", some "29,98"])).2.1
          (fougeresReconcile (fougeresScan [some "2", some "14,99", some "29,98"])).2.2) := rfl
    rw [h3, h1, h2, Option.map_some']
    rw [parse_1499, parse_2998]
    rfl
  · have h1 : fougeresScan [some "2", some "29,98", some "14,99"] =
        if parseDecStr "29,98" = 0 then (2, parseDecStr "14,99", (0 : ℚ))
        else (2, parseDecStr "29,98", parseDecStr "14,99") := rfl
    rw [if_neg parse_2998_ne] at h1
    have h2 : fougeresReconcile (2, parseDecStr "29,98", parseDecStr "14,99") =
        (2, parseDecStr "29,98", parseDecStr "14,99") := by
      rw [fougeresReconcile, if_neg]
      intro hand
      exact parse_1499_ne hand.1
    have h3 : fougeresRow "01/01/2024" "VTE-1"
        [some "1234567", some "PRODUIT A", some "2", some "29,98", some "14,99"] =
        some (mkFougeresRecord "01/01/2024" "VTE-1" "1234567" "PRODUIT A"
          (fougeresReconcile (fougeresScan [some "2", some "29,98", some "14,99"])).1
          (fougeresReconcile (fougeresScan [some "2", some "29,98", some "14,99"])).2.1
          (fougeresReconcile (fougeresScan [some "2", some "29,98", some "14,99"])).2.2) := rfl
    rw [h3, h1, h2, Option.map_some']
    rw [parse_2998, parse_1499]
    rfl
  · intro h
    rw [Prod.mk.injEq] at h
    have := h.1
    norm_num at this

/-- C1 (amended): for a Fougères table row whose scanned cells are a quantity
    cell followed by exactly two price-like candidates (both non-zero), the
    FIRST price candidate in row order becomes the unit price and the SECOND
    becomes the total amount — a positional rule, so swapping the candidates
    swaps the roles (order-dependent); no larger-is-total comparison and no
    0.1-tolerance recomputation exists (the total is recomputed as
    unit × quantity only when no second candidate was captured). -/
theorem C1_first_candidate_is_unit_price (q s1 s2 : String)
    (hq0 : q ≠ "") (hs10 : s1 ≠ "") (hs20 : s2 ≠ "")
    (hq1 : isDigitStr (stripStr q) = true)
    (hq2 : natOfDigits (stripStr q).data < 1000)
    (h1 : isPriceCell24 (stripStr s1) = true)
    (h2 : isPriceCell24 (stripStr s2) = true)
    (hd1 : isDigitStr (stripStr s1) = false)
    (hd2 : isDigitStr (stripStr s2) = false)
    (hp1 : parseDecStr (stripStr s1) ≠ 0)
    (hp2 : parseDecStr (stripStr s2) ≠ 0) :
    fougeresReconcile (fougeresScan [some q, some s1, some s2]) =
      (natOfDigits (stripStr q).data, parseDecStr (stripStr s1), parseDecStr (stripStr s2)) := by
  have hstep : fougeresScan [some q, some s1, some s2] =
      (natOfDigits (stripStr q).data, parseDecStr (stripStr s1), parseDecStr (stripStr s2)) := by
    simp only [fougeresScan, List.foldl, fougeresCellStep, hq0, hq1, hq2, h1, h2, hd1, hd2,
      if_true, if_false, Bool.false_eq_true, Bool.and_eq_true, decide_eq_true_eq, if_neg hp1]
    simp [hq0, hs10, hs20, hq1, hq2, hd1, hd2, h1, h2, hp1]
  rw [hstep, fougeresReconcile, if_neg]
  intro hand
  exact hp2 hand.1

/-- C1 (witness): the amended positional rule applied at the concrete cells
    ("2", "14,99", "29,98"). -/
theorem C1_witness :
    fougeresReconcile (fougeresScan [some "2", some "14,99", some "29,98"]) =
      (natOfDigits (stripStr "2").data, parseDecStr (stripStr "14,99"),
        parseDecStr (stripStr "29,98")) :=
  C1_first_candidate_is_unit_price "2" "14,99" "29,98" (by decide) (by decide) (by decide)
    (by decide) (by decide) (by decide) (by decide) (by decide) (by decide)
    (by rw [show stripStr "14,99" = "14,99" from rfl]; exact parse_1499_ne)
    (by rw [show stripStr "29,98" = "29,98" from rfl]; exact parse_2998_ne)

/-! ### Claim C2 -/

def c2Texte : String :=
  "du 01/02/2024 FACTURE X123\nPRODUIT BETA 3 20,00\nPRODUIT GAMMA 4 30,00"

def c2Tables : List (List (List (Option String))) :=
  [[[some "123", some "PRODUIT ALPHA", some "2", some "10,00"]]]

/-- C2 (counterexample): the table strategy yields exactly one candidate —
    below the claimed minimum-yield threshold of 3 — yet the pipeline stops
    there: the output is that single table record, and the nonempty output
    the line-text strategy would have produced is discarded. -/
theorem C2_counterexample :
    analyser_universel c2Texte c2Tables "Autre fournisseur" "09/09/2024" "202409090000"
        = [mkUniversalRecord "01/02/2024" "X123" "Autre fournisseur" "123" "PRODUIT ALPHA" 2 10]
      ∧ (universel_strategie2 "01/02/2024" "X123" "Autre fournisseur" c2Texte).map
          (fun r => r.designation) = ["PRODUIT BETA", "PRODUIT GAMMA"]
      ∧ universel_strategie2 "01/02/2024" "X123" "Autre fournisseur" c2Texte ≠ [] := by
  have hrow : universalTableRow "01/02/2024" "X123" "Autre fournisseur"
      [some "123", some "PRODUIT ALPHA", some "2", some "10,00"]
      = some (mkUniversalRecord "01/02/2024" "X123" "Autre fournisseur"
          "123" "PRODUIT ALPHA" 2 10) := by
    have h0 : universalTableRow "01/02/2024" "X123" "Autre fournisseur"
        [some "123", some "PRODUIT ALPHA", some "2", some "10,00"]
        = if parseDecStr "10,00" = 0 then none
          else some (mkUniversalRecord "01/02/2024" "X123" "Autre fournisseur"
            "123" "PRODUIT ALPHA" 2 (parseDecStr "10,00")) := rfl
    rw [parse_1000] at h0
    rw [h0, if_neg (by norm_num)]
  have hs1 : universel_strategie1 "01/02/2024" "X123" "Autre fournisseur" c2Tables
      = [mkUniversalRecord "01/02/2024" "X123" "Autre fournisseur"
          "123" "PRODUIT ALPHA" 2 10] := by
    simp [universel_strategie1, concatAll, c2Tables, hrow]
  have hmap : (universel_strategie2 "01/02/2024" "X123" "Autre fournisseur" c2Texte).map
      (fun r => r.designation) = ["PRODUIT BETA", "PRODUIT GAMMA"] := rfl
  refine ⟨?_, hmap, ?_⟩
  · have hd : searchDateUniversel c2Texte = some "01/02/2024" := rfl
    have hn : searchNumUniversel c2Texte = some "X123" := rfl
    simp only [analyser_universel, hd, hn, Option.getD_some]
    rw [hs1]
    simp
  · intro h
    rw [h] at hmap
    exact absurd hmap (by simp)

/-- C2 (amended): a later strategy of the extraction cascade runs only when
    the earlier strategy produced NO candidate at all (`if not produits:`):
    the gate is emptiness, i.e. a minimum yield of one candidate — there is
    no 3-candidate threshold and no known-short-document exception, in
    either `analyser_universel` or `analyser_fougeres_avance`. -/
theorem C2_cascade_gate_is_emptiness (texte : String)
    (tables : List (List (List (Option String))))
    (fourn nowDate nowNum date num dateF numF : String)
    (hd : date = (searchDateUniversel texte).getD nowDate)
    (hn : num = (searchNumUniversel texte).getD ("AUTO_" ++ nowNum))
    (hdf : dateF = (fougeresDate texte).getD nowDate)
    (hnf : numF = (fougeresNum texte).getD "N/A") :
    (universel_strategie1 date num fourn tables ≠ [] →
        analyser_universel texte tables fourn nowDate nowNum
          = universel_strategie1 date num fourn tables)
      ∧ (universel_strategie1 date num fourn tables = [] →
        analyser_universel texte tables fourn nowDate nowNum
          = universel_strategie2 date num fourn texte)
      ∧ (fougeres_strategie1 dateF numF tables ≠ [] →
        analyser_fougeres_avance texte tables nowDate
          = fougeres_strategie1 dateF numF tables)
      ∧ (fougeres_strategie1 dateF numF tables = [] →
        analyser_fougeres_avance texte tables nowDate
          = fougeres_strategie2 dateF numF texte) := by
  subst hd hn hdf hnf
  refine ⟨?_, ?_, ?_, ?_⟩ <;> intro h
  · cases hp : universel_strategie1 ((searchDateUniversel texte).getD nowDate)
      ((searchNumUniversel texte).getD ("AUTO_" ++ nowNum)) fourn tables with
    | nil => exact absurd hp h
    | cons a l => simp only [analyser_universel, hp, List.isEmpty_cons, Bool.false_eq_true,
        if_false]
  · simp only [analyser_universel, h, List.isEmpty_nil, if_true]
  · cases hp : fougeres_strategie1 ((fougeresDate texte).getD nowDate)
      ((fougeresNum texte).getD "N/A") tables with
    | nil => exact absurd hp h
    | cons a l => simp only [analyser_fougeres_avance, hp, List.isEmpty_cons,
        Bool.false_eq_true, if_false]
  · simp only [analyser_fougeres_avance, h, List.isEmpty_nil, if_true]

/-- C2 (witness): the amended gate applied with empty tables — strategy 1
    yields zero candidates and the output is exactly strategy 2's. -/
theorem C2_witness :
    analyser_universel "PRODUIT BETA 3 20,00" [] "F" "01/01/2024" "X"
      = universel_strategie2 "01/01/2024" "AUTO_X" "F" "PRODUIT BETA 3 20,00" :=
  (C2_cascade_gate_is_emptiness "PRODUIT BETA 3 20,00" [] "F" "01/01/2024" "X"
    "01/01/2024" "AUTO_X" "01/01/2024" "N/A" rfl rfl rfl rfl).2.1 rfl

/-! ### Claim C5 -/

/-- C5: when the line-item candidate list is empty and the grand-total scan
    of the full text succeeds, the assembler produces exactly one sentinel
    record: the designation carries the total-invoice marker, the quantity is
    1, the canonical unit is PC, and the total amount (and unit price) equal
    the parsed grand total. -/
theorem C5_total_only_sentinel (texte fourn nowDate nomFichier : String) (m : ℚ)
    (h : searchMontantTotal texte = some m) :
    analyser_pdf_post [] texte fourn nowDate nomFichier =
      [⟨⟨nowDate, "EXTRACTION_BASIQUE", fourn, "",
          "Montant total facture - " ++ fourn, "Total facture", "Autre",
          "1PC", 1, 1, 1, "PC", m, m, 0⟩, nomFichier, 0⟩] := by
  simp [analyser_pdf_post, extraction_secours, h]

lemma searchMontantTotal_c5 :
    searchMontantTotal "TOTAL TTC 1 234,56" = some (30864 / 25 : ℚ) := by
  rw [show searchMontantTotal "TOTAL TTC 1 234,56"
      = some (decVal ['1', '2', '3', '4'] ['5', '6']) from rfl,
    decVal_eval _ _ 1234 56 2 (by decide) (by decide) (by decide)]
  norm_num

/-- C5 (witness): the sentinel theorem applied to a concrete text whose
    grand-total scan finds 1 234,56. -/
theorem C5_witness :
    analyser_pdf_post [] "TOTAL TTC 1 234,56" "Autre fournisseur" "01/01/2024" "f.pdf" =
      [⟨⟨"01/01/2024", "EXTRACTION_BASIQUE", "Autre fournisseur", "",
          "Montant total facture - Autre fournisseur", "Total facture", "Autre",
          "1PC", 1, 1, 1, "PC", 30864 / 25, 30864 / 25, 0⟩, "f.pdf", 0⟩] :=
  C5_total_only_sentinel "TOTAL TTC 1 234,56" "Autre fournisseur" "01/01/2024" "f.pdf"
    (30864 / 25) searchMontantTotal_c5

/-! ### Claims C8 and C10 -/

lemma mkUniversalRecord_guard (date num fourn code dsg : String) (q : ℕ) (p : ℚ) :
    (mkUniversalRecord date num fourn code dsg q p).prixUnitaire =
      if (mkUniversalRecord date num fourn code dsg q p).nbUnites = 0
      then (mkUniversalRecord date num fourn code dsg q p).montantHT
      else (mkUniversalRecord date num fourn code dsg q p).montantHT /
        ((mkUniversalRecord date num fourn code dsg q p).nbUnites : ℚ) := by
  show (if 0 < q then p / (q : ℚ) else p) = if q = 0 then p else p / (q : ℚ)
  rcases q with _ | q'
  · simp
  · simp

lemma mkMetroRecord_guard (fourn date num code dsg : String) (q : ℕ) (p : ℚ) :
    (mkMetroRecord fourn date num code dsg q p).prixUnitaire =
      if (mkMetroRecord fourn date num code dsg q p).nbUnites = 0
      then (mkMetroRecord fourn date num code dsg q p).montantHT
      else (mkMetroRecord fourn date num code dsg q p).montantHT /
        ((mkMetroRecord fourn date num code dsg q p).nbUnites : ℚ) := by
  show (if 0 < q then p / (q : ℚ) else p) = if q = 0 then p else p / (q : ℚ)
  rcases q with _ | q'
  · simp
  · simp

/-- C8: in every record emitted by the universal extractor (table strategy or
    generic line strategy) and by the Metro line parser, the single extracted
    price becomes the total amount and the unit price is total / quantity
    guarded against division by zero: when the quantity is 0 the unit price
    is set equal to the total, and the division branch is taken only when the
    quantity is positive. -/
theorem C8_division_guard :
    (∀ (date num fourn : String) (row : List (Option String)) (r : Produit),
        universalTableRow date num fourn row = some r →
        r.prixUnitaire = if r.nbUnites = 0 then r.montantHT
          else r.montantHT / (r.nbUnites : ℚ))
      ∧ (∀ (date num fourn line : String) (r : Produit),
        universalLineParse date num fourn line = some r →
        r.prixUnitaire = if r.nbUnites = 0 then r.montantHT
          else r.montantHT / (r.nbUnites : ℚ))
      ∧ (∀ (texte date num line : String) (r : Produit),
        metroLineParse texte date num line = some r →
        r.prixUnitaire = if r.nbUnites = 0 then r.montantHT
          else r.montantHT / (r.nbUnites : ℚ)) := by
  refine ⟨?_, ?_, ?_⟩
  · intro date num fourn row r h
    unfold universalTableRow at h
    split at h
    · split at h
      · split at h
        · exact absurd h (by simp)
        · injection h with h'
          subst h'
          exact mkUniversalRecord_guard _ _ _ _ _ _ _
      · exact absurd h (by simp)
    · exact absurd h (by simp)
  · intro date num fourn line r h
    unfold universalLineParse at h
    rcases Option.map_eq_some'.mp h with ⟨g, _, hr⟩
    subst hr
    exact mkUniversalRecord_guard _ _ _ _ _ _ _
  · intro texte date num line r h
    unfold metroLineParse at h
    rcases Option.map_eq_some'.mp h with ⟨g, _, hr⟩
    subst hr
    exact mkMetroRecord_guard _ _ _ _ _ _ _

def c8Row : List (Option String) := [some "123", some "PRODUITX", some "0", some "10,00"]

/-- C8 (witness): a concrete table row whose quantity cell is "0" — the
    emitted record takes the guard branch (unit price = total = 10). -/
theorem C8_witness :
    universalTableRow "d" "n" "f" c8Row
        = some (mkUniversalRecord "d" "n" "f" "123" "PRODUITX" 0 10)
      ∧ (mkUniversalRecord "d" "n" "f" "123" "PRODUITX" 0 10).prixUnitaire =
        if (mkUniversalRecord "d" "n" "f" "123" "PRODUITX" 0 10).nbUnites = 0
        then (mkUniversalRecord "d" "n" "f" "123" "PRODUITX" 0 10).montantHT
        else (mkUniversalRecord "d" "n" "f" "123" "PRODUITX" 0 10).montantHT /
          ((mkUniversalRecord "d" "n" "f" "123" "PRODUITX" 0 10).nbUnites : ℚ) := by
  have h0 : universalTableRow "d" "n" "f" c8Row
      = if parseDecStr "10,00" = 0 then none
        else some (mkUniversalRecord "d" "n" "f" "123" "PRODUITX" 0 (parseDecStr "10,00")) :=
    rfl
  rw [parse_1000] at h0
  rw [if_neg (by norm_num)] at h0
  exact ⟨h0, C8_division_guard.1 "d" "n" "f" c8Row _ h0⟩

lemma mkUniversalRecord_exact (date num fourn code dsg : String) (q : ℕ) (p : ℚ)
    (hq : 0 < q) :
    (mkUniversalRecord date num fourn code dsg q p).montantHT =
      (mkUniversalRecord date num fourn code dsg q p).prixUnitaire *
        ((mkUniversalRecord date num fourn code dsg q p).nbUnites : ℚ) := by
  show p = (if 0 < q then p / (q : ℚ) else p) * (q : ℚ)
  rw [if_pos hq, div_mul_cancel₀]
  exact Nat.cast_ne_zero.mpr (Nat.pos_iff_ne_zero.mp hq)

lemma mkMetroRecord_exact (fourn date num code dsg : String) (q : ℕ) (p : ℚ)
    (hq : 0 < q) :
    (mkMetroRecord fourn date num code dsg q p).montantHT =
      (mkMetroRecord fourn date num code dsg q p).prixUnitaire *
        ((mkMetroRecord fourn date num code dsg q p).nbUnites : ℚ) := by
  show p = (if 0 < q then p / (q : ℚ) else p) * (q : ℚ)
  rw [if_pos hq, div_mul_cancel₀]
  exact Nat.cast_ne_zero.mpr (Nat.pos_iff_ne_zero.mp hq)

/-! ### IEEE-754 binary64 rounding

The record builders above model Python's float division by exact rational
division.  To settle claim C10 — which asserts a bit-exact identity of the
stored values — the rounding step that binary64 division performs is made
explicit here, the floating-point analogue of modelling machine integers
with an explicit wrap: `fl64Pos n d` is the IEEE-754 binary64 value
(round to nearest, ties to even, 53-bit significand) of the positive
rational `n / d`, for values in the normal finite range (no overflow or
subnormal handling, which the invoice amounts never reach). -/

/-- Number of binary digits of a natural number (fuelled, fully reducible). -/
def bitLenAux : ℕ → ℕ → ℕ
  | 0, _ => 0
  | fuel + 1, n => if n = 0 then 0 else bitLenAux fuel (n / 2) + 1

def bitLen (n : ℕ) : ℕ := bitLenAux n n

/-- Round to nearest, ties to even, of the quotient a / b. -/
def rndHalfEven (a b : ℕ) : ℕ :=
  if 2 * (a % b) < b then a / b
  else if b < 2 * (a % b) then a / b + 1
  else if (a / b) % 2 = 0 then a / b else a / b + 1

/-- IEEE-754 binary64 rounding of the positive rational `n / d`: the
    significand is the half-even rounding of `n / d` scaled into
    `[2^52, 2^53)`.  This is the value CPython stores for `n / d`. -/
def fl64Pos (n d : ℕ) : ℚ :=
  if n = 0 || d = 0 then 0
  else
    let L := bitLen n
    let M := bitLen d
    let s : ℤ := 52 + (M : ℤ) - (L : ℤ) + (if d * 2 ^ L ≤ n * 2 ^ M then 0 else 1)
    if 0 ≤ s then (rndHalfEven (n * 2 ^ s.toNat) d : ℚ) / 2 ^ s.toNat
    else (rndHalfEven n (d * 2 ^ (-s).toNat) : ℚ) * 2 ^ (-s).toNat

lemma parse_100 : parseDecStr "1,00" = 1 := by
  rw [show parseDecStr "1,00" = decVal ['1'] ['0', '0'] from rfl,
    decVal_eval _ _ 1 0 2 (by decide) (by decide) (by decide)]
  norm_num

def c10Row : List (Option String) := [some "123", some "PRODUITX", some "49", some "1,00"]

/-- C10 (counterexample): the bit-exact identity the claim asserts fails on
    the program's IEEE doubles at a reachable input.  The table row with
    price cell "1,00" and quantity cell "49" is emitted with Nb Unités 49
    and Montant HT 1; the double the program stores as Prix Unitaire HT is
    the rounded quotient `fl64Pos 1 49` (= 5882252574524729 · 2⁻⁵⁸, as
    `(1.0 / 49).as_integer_ratio()` confirms), which is not the exact
    quotient the rational model keeps, and multiplying it back by the
    quantity does not return the total: the claimed exact equality — stated
    as stronger than the 0.1-tolerance invariant — does not hold bit-exactly. -/
theorem C10_counterexample :
    universalTableRow "d" "n" "f" c10Row
        = some (mkUniversalRecord "d" "n" "f" "123" "PRODUITX" 49 1)
      ∧ (mkUniversalRecord "d" "n" "f" "123" "PRODUITX" 49 1).nbUnites = 49
      ∧ (mkUniversalRecord "d" "n" "f" "123" "PRODUITX" 49 1).montantHT = 1
      ∧ fl64Pos 1 49 ≠ (mkUniversalRecord "d" "n" "f" "123" "PRODUITX" 49 1).prixUnitaire
      ∧ fl64Pos 1 49 * 49 ≠ 1 := by
  have h0 : universalTableRow "d" "n" "f" c10Row
      = if parseDecStr "1,00" = 0 then none
        else some (mkUniversalRecord "d" "n" "f" "123" "PRODUITX" 49 (parseDecStr "1,00")) :=
    rfl
  rw [parse_100] at h0
  rw [if_neg (by norm_num)] at h0
  have hfl : fl64Pos 1 49 = ((5882252574524729 : ℕ) : ℚ) / 2 ^ 58 := rfl
  have hpu : (mkUniversalRecord "d" "n" "f" "123" "PRODUITX" 49 1).prixUnitaire
      = 1 / ((49 : ℕ) : ℚ) := rfl
  refine ⟨h0, rfl, rfl, ?_, ?_⟩
  · rw [hfl, hpu]
    norm_num
  · rw [hfl]
    norm_num

/-- C10 (amended): every record emitted by the universal extractor (either
    strategy) or the Metro parser with positive quantity satisfies
    Montant HT = Prix Unitaire HT × Nb Unités in the exact-rational model of
    the float arithmetic — the real-number identity (p / q) × q = p for the
    single extracted price p, because the unit price is computed as that
    price divided by the quantity.  Over the program's IEEE-754 doubles the
    stored unit price is the ROUNDED quotient, so the identity holds only up
    to one rounding of the division and the original claim's bit-exact
    reading fails (see the counterexample at price 1,00 × quantity 49). -/
theorem C10_exact_price_identity :
    (∀ (date num fourn : String) (row : List (Option String)) (r : Produit),
        universalTableRow date num fourn row = some r → 0 < r.nbUnites →
        r.montantHT = r.prixUnitaire * (r.nbUnites : ℚ))
      ∧ (∀ (date num fourn line : String) (r : Produit),
        universalLineParse date num fourn line = some r → 0 < r.nbUnites →
        r.montantHT = r.prixUnitaire * (r.nbUnites : ℚ))
      ∧ (∀ (texte date num line : String) (r : Produit),
        metroLineParse texte date num line = some r → 0 < r.nbUnites →
        r.montantHT = r.prixUnitaire * (r.nbUnites : ℚ)) := by
  refine ⟨?_, ?_, ?_⟩
  · intro date num fourn row r h hq
    unfold universalTableRow at h
    split at h
    · split at h
      · split at h
        · exact absurd h (by simp)
        · injection h with h'
          subst h'
          exact mkUniversalRecord_exact _ _ _ _ _ _ _ hq
      · exact absurd h (by simp)
    · exact absurd h (by simp)
  · intro date num fourn line r h hq
    unfold universalLineParse at h
    rcases Option.map_eq_some'.mp h with ⟨g, _, hr⟩
    subst hr
    exact mkUniversalRecord_exact _ _ _ _ _ _ _ hq
  · intro texte date num line r h hq
    unfold metroLineParse at h
    rcases Option.map_eq_some'.mp h with ⟨g, _, hr⟩
    subst hr
    exact mkMetroRecord_exact _ _ _ _ _ _ _ hq

/-- C10 (witness): the generic line "PRODUIT BETA 3 20,00" yields quantity 3,
    unit price 20/3 and total 20 = (20/3) × 3 exactly. -/
theorem C10_witness :
    universalLineParse "d" "n" "f" "PRODUIT BETA 3 20,00"
        = some (mkUniversalRecord "d" "n" "f" "" "PRODUIT BETA" 3 20)
      ∧ (mkUniversalRecord "d" "n" "f" "" "PRODUIT BETA" 3 20).montantHT =
        (mkUniversalRecord "d" "n" "f" "" "PRODUIT BETA" 3 20).prixUnitaire *
          ((mkUniversalRecord "d" "n" "f" "" "PRODUIT BETA" 3 20).nbUnites : ℚ) := by
  have h0 : universalLineParse "d" "n" "f" "PRODUIT BETA 3 20,00"
      = some (mkUniversalRecord "d" "n" "f" "" "PRODUIT BETA" 3
          (decVal ['2', '0'] ['0', '0'])) := rfl
  rw [decVal_2000] at h0
  exact ⟨h0, C10_exact_price_identity.2.1 "d" "n" "f" "PRODUIT BETA 3 20,00" _ h0 (by decide)⟩

/-! ### Claim C9 -/

/-- C9 (counterexample): the date pattern matches this text, so per the claim
    the extraction should no longer depend on the wall clock; but the
    invoice-number fallback `AUTO_<timestamp>` is a second wall-clock
    dependent default, and two runs with different clock values produce
    different record sequences. -/
theorem C9_counterexample :
    searchDateUniversel "du 01/02/2024\nPRODUIT X 2 10,00" = some "01/02/2024"
      ∧ analyser_universel "du 01/02/2024\nPRODUIT X 2 10,00" [] "Autre fournisseur"
          "09/09/2024" "202401010000"
        ≠ analyser_universel "du 01/02/2024\nPRODUIT X 2 10,00" [] "Autre fournisseur"
          "09/09/2024" "202501010000" := by
  have h1 : (analyser_universel "du 01/02/2024\nPRODUIT X 2 10,00" [] "Autre fournisseur"
      "09/09/2024" "202401010000").map (fun r => r.numFacture) = ["AUTO_202401010000"] := rfl
  have h2 : (analyser_universel "du 01/02/2024\nPRODUIT X 2 10,00" [] "Autre fournisseur"
      "09/09/2024" "202501010000").map (fun r => r.numFacture) = ["AUTO_202501010000"] := rfl
  refine ⟨rfl, ?_⟩
  intro h
  rw [h] at h1
  rw [h1] at h2
  exact absurd h2 (by simp)

/-- C9 (amended): supplier identification plus universal line extraction is a
    pure function of `(texte, tables)` — re-running it yields identical
    record sequences — and it is wall-clock independent exactly when both a
    date pattern and an invoice-number pattern match the text; the two
    wall-clock defaults are the `date_facture` default (no date match) and
    the `AUTO_<timestamp>` invoice-number default (no number match). -/
theorem C9_wall_clock_isolated (texte : String)
    (tables : List (List (List (Option String))))
    (fourn nd1 nn1 nd2 nn2 : String)
    (hd : (searchDateUniversel texte).isSome = true)
    (hn : (searchNumUniversel texte).isSome = true) :
    (detecter_fournisseur texte, analyser_universel texte tables fourn nd1 nn1)
      = (detecter_fournisseur texte, analyser_universel texte tables fourn nd2 nn2) := by
  obtain ⟨d, hd'⟩ := Option.isSome_iff_exists.mp hd
  obtain ⟨n, hn'⟩ := Option.isSome_iff_exists.mp hn
  simp [analyser_universel, hd', hn']

/-- C9 (witness): on a text where both header patterns match, two runs with
    different wall-clock defaults coincide. -/
theorem C9_witness :
    (detecter_fournisseur "du 01/02/2024 FACTURE X123\nPRODUIT BETA 3 20,00",
      analyser_universel "du 01/02/2024 FACTURE X123\nPRODUIT BETA 3 20,00" [] "F"
        "01/01/2020" "A")
    = (detecter_fournisseur "du 01/02/2024 FACTURE X123\nPRODUIT BETA 3 20,00",
      analyser_universel "du 01/02/2024 FACTURE X123\nPRODUIT BETA 3 20,00" [] "F"
        "31/12/2030" "B") :=
  C9_wall_clock_isolated "du 01/02/2024 FACTURE X123\nPRODUIT BETA 3 20,00" [] "F"
    "01/01/2020" "A" "31/12/2030" "B" rfl rfl
